import Mathlib

/-!
Shallow embedding of the SmartHandController catalog manager from
src/addons/St4Serial/SmartHandController/Catalog.cpp (OnStep).

The catalog registry lives in a fixed C array `catalog[]`; the manager keeps
a selected index, one mutable cursor per catalog entry, a filter bitmask and
observer state, and eight mutually exclusive typed-view pointers that
`CatMgr::select` binds to the selected catalog's record array.

C doubles are modelled as real numbers, C integers as ℤ/ℕ.  The record
struct layouts, the `catalog_t` struct, the `CAT_TYPES` enum, the `FM_*`
bitmask constants, `MaxCatalogs` and the `Rad` constant come from headers
that are not part of the analysed sources; they are modelled from the spec
where noted.  The registry array is modelled as a total function ℤ → catalog_t
together with the array length, so that an out-of-range read (undefined
behaviour in C) is visible as an index outside `[0, catalogLen)`.
-/

namespace OnStepCat

/-- Modelled from the spec: the catalog-type tag enumeration from the missing
    CatalogTypes.h header; the tag set is exactly the one the dispatch code in
    Catalog.cpp tests for. -/
inductive CAT_TYPES where
  | CAT_NONE
  | CAT_GEN_STAR
  | CAT_GEN_STAR_VCOMP
  | CAT_DBL_STAR
  | CAT_DBL_STAR_COMP
  | CAT_VAR_STAR
  | CAT_DSO
  | CAT_DSO_COMP
  | CAT_DSO_VCOMP
  deriving DecidableEq, Inhabited

open CAT_TYPES

/-- Modelled from the spec: full-precision generic-star record (layout from the
    missing CatalogTypes.h); RA/DE are native floating values, the magnitude is
    a scaled integer in hundredths, plus presence flags used by the
    name/sub-id resolution. -/
structure gen_star_t where
  RA : ℝ
  DE : ℝ
  Mag : ℤ
  Cons : ℕ
  BayerFlam : ℕ
  Has_name : Bool
  Has_subId : Bool
  Obj_id : ℤ
  deriving Inhabited

/-- Modelled from the spec: very-compact generic-star record; RA/DE/magnitude
    are scaled integers, the magnitude a single byte (255 = unknown). -/
structure gen_star_vcomp_t where
  RA : ℤ
  DE : ℤ
  Mag : ℕ
  Cons : ℕ
  BayerFlam : ℕ
  Has_name : Bool
  Has_subId : Bool
  deriving Inhabited

/-- Modelled from the spec: full-precision double-star record; separation is
    stored in tenths of an arcsecond, magnitudes in hundredths. -/
structure dbl_star_t where
  RA : ℝ
  DE : ℝ
  Mag : ℤ
  Mag2 : ℤ
  PA : ℤ
  Sep : ℤ
  Cons : ℕ
  BayerFlam : ℕ
  Has_name : Bool
  Has_subId : Bool
  Obj_id : ℤ
  deriving Inhabited

/-- Modelled from the spec: compact double-star record; RA/DE scaled integers,
    magnitudes single bytes (255 = unknown), separation in tenths. -/
structure dbl_star_comp_t where
  RA : ℤ
  DE : ℤ
  Mag : ℕ
  Mag2 : ℕ
  PA : ℤ
  Sep : ℤ
  Cons : ℕ
  BayerFlam : ℕ
  Has_name : Bool
  Has_subId : Bool
  Obj_id : ℤ
  deriving Inhabited

/-- Modelled from the spec: variable-star record; magnitudes in hundredths and
    the variability period as a scaled integer (32767 = unknown). -/
structure var_star_t where
  RA : ℝ
  DE : ℝ
  Mag : ℤ
  Mag2 : ℤ
  Period : ℤ
  Cons : ℕ
  BayerFlam : ℕ
  Has_name : Bool
  Has_subId : Bool
  Obj_id : ℤ
  deriving Inhabited

/-- Modelled from the spec: full-precision deep-sky-object record with an
    object-type code. -/
structure dso_t where
  RA : ℝ
  DE : ℝ
  Mag : ℤ
  Obj_type : ℕ
  Cons : ℕ
  Has_name : Bool
  Has_subId : Bool
  Obj_id : ℤ
  deriving Inhabited

/-- Modelled from the spec: compact deep-sky-object record; magnitude a byte. -/
structure dso_comp_t where
  RA : ℤ
  DE : ℤ
  Mag : ℕ
  Obj_type : ℕ
  Cons : ℕ
  Has_name : Bool
  Has_subId : Bool
  Obj_id : ℤ
  deriving Inhabited

/-- Modelled from the spec: very-compact deep-sky-object record; magnitude a
    byte, primary id implicit (index + 1). -/
structure dso_vcomp_t where
  RA : ℤ
  DE : ℤ
  Mag : ℕ
  Obj_type : ℕ
  Cons : ℕ
  Has_name : Bool
  Has_subId : Bool
  deriving Inhabited

/-- The opaque `void*` record array of a registry entry; in C it is cast to the
    typed pointer chosen by the registry's type tag.  `noData` models a NULL
    `Objects` pointer (the registry sentinel). -/
inductive CatData where
  | genStar (l : List gen_star_t)
  | genStarVComp (l : List gen_star_vcomp_t)
  | dblStar (l : List dbl_star_t)
  | dblStarComp (l : List dbl_star_comp_t)
  | varStar (l : List var_star_t)
  | dso (l : List dso_t)
  | dsoComp (l : List dso_comp_t)
  | dsoVComp (l : List dso_vcomp_t)
  | noData
  deriving Inhabited

/-- The C cast `(gen_star_t*)Objects`: meaningful when the data really is a
    generic-star array, garbage (modelled as the empty array) otherwise. -/
def CatData.asGenStar : CatData → List gen_star_t
  | CatData.genStar l => l
  | _ => []

def CatData.asGenStarVComp : CatData → List gen_star_vcomp_t
  | CatData.genStarVComp l => l
  | _ => []

def CatData.asDblStar : CatData → List dbl_star_t
  | CatData.dblStar l => l
  | _ => []

def CatData.asDblStarComp : CatData → List dbl_star_comp_t
  | CatData.dblStarComp l => l
  | _ => []

def CatData.asVarStar : CatData → List var_star_t
  | CatData.varStar l => l
  | _ => []

def CatData.asDso : CatData → List dso_t
  | CatData.dso l => l
  | _ => []

def CatData.asDsoComp : CatData → List dso_comp_t
  | CatData.dsoComp l => l
  | _ => []

def CatData.asDsoVComp : CatData → List dso_vcomp_t
  | CatData.dsoVComp l => l
  | _ => []

/-- Modelled from the spec: one registry entry (`catalog_t` from the missing
    Catalog.h header): title, object-name prefix (field renamed `Pfx` here),
    record count, opaque record array, semicolon-delimited name and sub-id
    string tables, type tag, epoch, and the mutable per-catalog cursor. -/
structure catalog_t where
  Title : String
  Pfx : String
  NumObjects : ℤ
  Objects : CatData
  ObjectNames : String
  ObjectSubIds : String
  CatalogType : CAT_TYPES
  Epoch : ℤ
  Index : ℤ
  deriving Inhabited

/-- The whole mutable state of the catalog manager: the registry array (as a
    total function plus its length, so out-of-range reads are observable),
    observer state, the active selection, the filter state, and the eight
    typed-view pointers (`Option` = bound / NULL). `nowMs` is the snapshot of
    the device tick counter `millis()` at which the current call happens. -/
structure CatMgr where
  catalog : ℤ → catalog_t
  catalogLen : ℕ
  lat : ℝ
  cosLat : ℝ
  sinLat : ℝ
  lstT0 : ℝ
  lstMillisT0 : ℕ
  nowMs : ℕ
  lastTeleRA : ℝ
  lastTeleDec : ℝ
  selected : ℤ
  fm : ℕ
  fm_con : ℤ
  fm_mag_limit : ℝ
  fm_nearby_dist : ℝ
  fm_obj_type : ℤ
  fm_dbl_min : ℝ
  fm_dbl_max : ℝ
  fm_var_max : ℝ
  genStarCatalog : Option (List gen_star_t)
  genStarVCompCatalog : Option (List gen_star_vcomp_t)
  dblStarCatalog : Option (List dbl_star_t)
  dblStarCompCatalog : Option (List dbl_star_comp_t)
  varStarCatalog : Option (List var_star_t)
  dsoCatalog : Option (List dso_t)
  dsoCompCatalog : Option (List dso_comp_t)
  dsoVCompCatalog : Option (List dso_vcomp_t)

/-- Modelled from the spec: the `FM_*` filter-mode bitmask constants from the
    missing header; only their distinctness as bits matters to Catalog.cpp. -/
def FM_NONE : ℕ := 0

def FM_ABOVE_HORIZON : ℕ := 1

def FM_ALIGN_ALL_SKY : ℕ := 2

def FM_CONSTELLATION : ℕ := 4

def FM_OBJ_TYPE : ℕ := 8

def FM_BY_MAG : ℕ := 16

def FM_NEARBY : ℕ := 32

def FM_DBL_MIN_SEP : ℕ := 64

def FM_DBL_MAX_SEP : ℕ := 128

def FM_VAR_MAX_PER : ℕ := 256

/-- Modelled from the spec: `MaxCatalogs` cap from the missing header (the
    scan in `numCatalogs` is capped at a fixed maximum; the code's fallback
    return is the literal 32). -/
def MaxCatalogs : ℕ := 32

/-- Whether a registry access `catalog[i]` is inside the actual array. -/
def inBoundsRead (s : CatMgr) (i : ℤ) : Prop :=
  0 ≤ i ∧ i < (s.catalogLen : ℤ)

/-- Embedding of `CatMgr::numCatalogs`: index of the first registry entry with a zero
    record count, scanning `0 ≤ i < MaxCatalogs`; 32 when none is found. -/
def numCatalogs (s : CatMgr) : ℤ :=
  match (List.range MaxCatalogs).find? (fun i => decide ((s.catalog (i : ℤ)).NumObjects = 0)) with
  | some i => (i : ℤ)
  | none => 32

/-- Embedding of `CatMgr::select`: clears the typed-view pointers (the source resets only
    six of the eight: `_dblStarCompCatalog` and `_varStarCatalog` are missing
    from its reset list), validates the index against `numCatalogs`, stores the
    selection (-1 when invalid) and, for a valid selection, binds the single
    view pointer matching the registry's type tag to (the cast of) that
    entry's record array. -/
def select (s0 : CatMgr) (number : ℤ) : CatMgr :=
  let s := { s0 with genStarCatalog := none, genStarVCompCatalog := none,
                     dblStarCatalog := none, dsoCatalog := none,
                     dsoCompCatalog := none, dsoVCompCatalog := none }
  let n := if number < 0 ∨ numCatalogs s ≤ number then -1 else number
  let s := { s with selected := n }
  if 0 ≤ s.selected then
    let c := s.catalog s.selected
    if c.CatalogType = CAT_GEN_STAR then
      { s with genStarCatalog := some (CatData.asGenStar c.Objects) }
    else if c.CatalogType = CAT_GEN_STAR_VCOMP then
      { s with genStarVCompCatalog := some (CatData.asGenStarVComp c.Objects) }
    else if c.CatalogType = CAT_DBL_STAR then
      { s with dblStarCatalog := some (CatData.asDblStar c.Objects) }
    else if c.CatalogType = CAT_DBL_STAR_COMP then
      { s with dblStarCompCatalog := some (CatData.asDblStarComp c.Objects) }
    else if c.CatalogType = CAT_VAR_STAR then
      { s with varStarCatalog := some (CatData.asVarStar c.Objects) }
    else if c.CatalogType = CAT_DSO then
      { s with dsoCatalog := some (CatData.asDso c.Objects) }
    else if c.CatalogType = CAT_DSO_COMP then
      { s with dsoCompCatalog := some (CatData.asDsoComp c.Objects) }
    else if c.CatalogType = CAT_DSO_VCOMP then
      { s with dsoVCompCatalog := some (CatData.asDsoVComp c.Objects) }
    else { s with selected := -1 }
  else s

/-- Embedding of `CatMgr::catalogType`: `catalog[_selected].CatalogType`, with no guard on
    `_selected`; with no selection this is the C read of `catalog[-1]`
    (undefined behaviour), modelled here as a read of the total registry
    function outside `[0, catalogLen)`. -/
def catalogType (s : CatMgr) : CAT_TYPES :=
  (s.catalog s.selected).CatalogType

/-- Registry read with its bounds check made explicit: `none` exactly when the
    C expression `catalog[i]` reads outside the array. -/
def registryGetO (s : CatMgr) (i : ℤ) : Option catalog_t :=
  if 0 ≤ i ∧ i < (s.catalogLen : ℤ) then some (s.catalog i) else none

/-- Embedding of `CatMgr::catalogTitle`. -/
def catalogTitle (s : CatMgr) : String :=
  if s.selected < 0 then "" else (s.catalog s.selected).Title

/-- Embedding of `CatMgr::catalogPrefix` (the `Prefix` field is renamed `Pfx` here). -/
def catalogPrefixText (s : CatMgr) : String :=
  if s.selected < 0 then "" else (s.catalog s.selected).Pfx

/-- Embedding of `CatMgr::epoch`. -/
def epoch (s : CatMgr) : ℤ :=
  if s.selected < 0 then -1 else (s.catalog s.selected).Epoch

/-- Embedding of `CatMgr::getIndex`: `catalog[_selected].Index` (no guard in the source). -/
def getIndex (s : CatMgr) : ℤ :=
  (s.catalog s.selected).Index

/-- Embedding of `CatMgr::getMaxIndex`: `catalog[_selected].NumObjects - 1`. -/
def getMaxIndex (s : CatMgr) : ℤ :=
  (s.catalog s.selected).NumObjects - 1

/-- The assignment `catalog[_selected].Index = v`. -/
def setIdx (s : CatMgr) (v : ℤ) : CatMgr :=
  { s with catalog :=
      Function.update s.catalog s.selected { s.catalog s.selected with Index := v } }

/-- Reading entry `i` of a typed-view record array, as the C expression
    `view[i]` (a NULL or out-of-range read is undefined behaviour in C;
    totalised here with the default record). -/
def idxGet {α : Type} [Inhabited α] (view : Option (List α)) (i : ℤ) : α :=
  ((view.getD []).getD i.toNat default)

/-- Embedding of `CatMgr::isDblStarCatalog`. -/
def isDblStarCatalog (s : CatMgr) : Bool :=
  decide (catalogType s = CAT_DBL_STAR) || decide (catalogType s = CAT_DBL_STAR_COMP)

/-- Embedding of `CatMgr::isVarStarCatalog`. -/
def isVarStarCatalog (s : CatMgr) : Bool :=
  decide (catalogType s = CAT_VAR_STAR)

/-- Embedding of `CatMgr::isDsoCatalog`. -/
def isDsoCatalog (s : CatMgr) : Bool :=
  decide (catalogType s = CAT_DSO) || decide (catalogType s = CAT_DSO_COMP) ||
    decide (catalogType s = CAT_DSO_VCOMP)

/-- Modelled from the spec: the fixed degrees-per-radian constant `Rad` from
    the missing Catalog.h header. -/
noncomputable def Rad : ℝ := 180 / Real.pi

/-- C's `atan2(y, x)`: the argument of the complex number x + y i, in
    (-pi, pi]. -/
noncomputable def atan2 (y x : ℝ) : ℝ :=
  Complex.arg (⟨x, y⟩ : Complex)

/-- The `while (x < 0) x += 360; while (x >= 360) x -= 360;` normalisation
    loops, as their closed form: the representative of x modulo 360 in
    [0, 360). -/
noncomputable def wrap360 (x : ℝ) : ℝ :=
  x - 360 * (⌊x / 360⌋ : ℤ)

/-- The `(unsigned long)(millis()-_lstMillisT0)` subtraction: 32-bit unsigned
    wraparound difference between the current tick snapshot and the LST seed
    tick. -/
def msSinceT0 (s : CatMgr) : ℕ :=
  (2 ^ 32 + s.nowMs % 2 ^ 32 - s.lstMillisT0 % 2 ^ 32) % 2 ^ 32

/-- Embedding of `CatMgr::lstHours`: the LST seed plus the elapsed solar milliseconds
    converted to sidereal seconds (ratio 1.00277778) and then to hours. -/
noncomputable def lstHours (s : CatMgr) : ℝ :=
  s.lstT0 + ((msSinceT0 s : ℝ) / 1000.0) * 1.00277778 / 3600.0

/-- Embedding of `CatMgr::lstDegs`: LST in degrees. -/
noncomputable def lstDegs (s : CatMgr) : ℝ :=
  lstHours s * 15.0

/-- Embedding of `CatMgr::isInitialized`: a valid latitude and a nonzero LST seed. -/
noncomputable def isInitialized (s : CatMgr) : Bool :=
  if s.lat < 9999 ∧ s.lstT0 ≠ 0 then true else false

/-- Embedding of `CatMgr::EquToHor`: equatorial (degrees) to horizon (degrees) using the
    cached sine/cosine of the latitude; returns (Alt, Azm). -/
noncomputable def EquToHor (s : CatMgr) (RA Dec : ℝ) : ℝ × ℝ :=
  let HA := wrap360 (lstDegs s - RA) / Rad
  let Dec' := Dec / Rad
  let SinAlt := Real.sin Dec' * s.sinLat + Real.cos Dec' * s.cosLat * Real.cos HA
  let Alt := Real.arcsin SinAlt
  let t1 := Real.sin HA
  let t2 := Real.cos HA * s.sinLat - Real.tan Dec' * s.cosLat
  let Azm := atan2 t1 t2 * Rad + 180.0
  (Alt * Rad, Azm)

/-- Embedding of `CatMgr::HorToEqu`: horizon (degrees) to equatorial (degrees); returns
    (RA, Dec). -/
noncomputable def HorToEqu (s : CatMgr) (Alt Azm : ℝ) : ℝ × ℝ :=
  let Azm' := wrap360 Azm / Rad
  let Alt' := Alt / Rad
  let SinDec := Real.sin Alt' * s.sinLat + Real.cos Alt' * s.cosLat * Real.cos Azm'
  let Dec := Real.arcsin SinDec
  let t1 := Real.sin Azm'
  let t2 := Real.cos Azm' * s.sinLat - Real.tan Alt' * s.cosLat
  let HA := wrap360 (atan2 t1 t2 * Rad + 180.0)
  (lstDegs s - HA, Dec * Rad)

/-- Embedding of `CatMgr::rah`: right ascension of the object under the cursor, in hours,
    dispatching on the active catalog type (compact types store RA as a
    scaled integer). -/
noncomputable def rah (s : CatMgr) : ℝ :=
  if s.selected < 0 then 0
  else if catalogType s = CAT_GEN_STAR then
    (idxGet s.genStarCatalog (getIndex s)).RA
  else if catalogType s = CAT_GEN_STAR_VCOMP then
    ((idxGet s.genStarVCompCatalog (getIndex s)).RA : ℝ) / 2730.6666666666666
  else if catalogType s = CAT_DBL_STAR then
    (idxGet s.dblStarCatalog (getIndex s)).RA
  else if catalogType s = CAT_DBL_STAR_COMP then
    ((idxGet s.dblStarCompCatalog (getIndex s)).RA : ℝ) / 2730.6666666666666
  else if catalogType s = CAT_VAR_STAR then
    (idxGet s.varStarCatalog (getIndex s)).RA
  else if catalogType s = CAT_DSO then
    (idxGet s.dsoCatalog (getIndex s)).RA
  else if catalogType s = CAT_DSO_COMP then
    ((idxGet s.dsoCompCatalog (getIndex s)).RA : ℝ) / 2730.6666666666666
  else if catalogType s = CAT_DSO_VCOMP then
    ((idxGet s.dsoVCompCatalog (getIndex s)).RA : ℝ) / 2730.6666666666666
  else 0

/-- Embedding of `CatMgr::ra`: right ascension in degrees. -/
noncomputable def ra (s : CatMgr) : ℝ :=
  rah s * 15.0

/-- Embedding of `CatMgr::dec`: declination in degrees.  Note the source has no
    `_selected < 0` guard here: with no selection, `catalogType()` reads
    `catalog[-1]` (see `catalogType`); the type-dispatch fallback returns 0. -/
noncomputable def dec (s : CatMgr) : ℝ :=
  if catalogType s = CAT_GEN_STAR then
    (idxGet s.genStarCatalog (getIndex s)).DE
  else if catalogType s = CAT_GEN_STAR_VCOMP then
    ((idxGet s.genStarVCompCatalog (getIndex s)).DE : ℝ) / 364.07777777777777
  else if catalogType s = CAT_DBL_STAR then
    (idxGet s.dblStarCatalog (getIndex s)).DE
  else if catalogType s = CAT_DBL_STAR_COMP then
    ((idxGet s.dblStarCompCatalog (getIndex s)).DE : ℝ) / 364.07777777777777
  else if catalogType s = CAT_VAR_STAR then
    (idxGet s.varStarCatalog (getIndex s)).DE
  else if catalogType s = CAT_DSO then
    (idxGet s.dsoCatalog (getIndex s)).DE
  else if catalogType s = CAT_DSO_COMP then
    ((idxGet s.dsoCompCatalog (getIndex s)).DE : ℝ) / 364.07777777777777
  else if catalogType s = CAT_DSO_VCOMP then
    ((idxGet s.dsoVCompCatalog (getIndex s)).DE : ℝ) / 364.07777777777777
  else 0

/-- Embedding of `CatMgr::alt`: altitude of the object under the cursor. -/
noncomputable def alt (s : CatMgr) : ℝ :=
  (EquToHor s (ra s) (dec s)).1

/-- Embedding of `CatMgr::azm`: azimuth of the object under the cursor. -/
noncomputable def azm (s : CatMgr) : ℝ :=
  (EquToHor s (ra s) (dec s)).2

/-- Embedding of `CatMgr::magnitude`: 99.9 with no selection; compact types decode the
    byte (255 = unknown, sentinel 99.9; otherwise tenths minus 2.5), full
    types decode hundredths. -/
noncomputable def magnitude (s : CatMgr) : ℝ :=
  if s.selected < 0 then 99.9
  else if catalogType s = CAT_GEN_STAR then
    ((idxGet s.genStarCatalog (getIndex s)).Mag : ℝ) / 100.0
  else if catalogType s = CAT_GEN_STAR_VCOMP then
    (if (idxGet s.genStarVCompCatalog (getIndex s)).Mag = 255 then 99.9
     else ((idxGet s.genStarVCompCatalog (getIndex s)).Mag : ℝ) / 10.0 - 2.5)
  else if catalogType s = CAT_DBL_STAR then
    ((idxGet s.dblStarCatalog (getIndex s)).Mag : ℝ) / 100.0
  else if catalogType s = CAT_DBL_STAR_COMP then
    (if (idxGet s.dblStarCompCatalog (getIndex s)).Mag = 255 then 99.9
     else ((idxGet s.dblStarCompCatalog (getIndex s)).Mag : ℝ) / 10.0 - 2.5)
  else if catalogType s = CAT_VAR_STAR then
    ((idxGet s.varStarCatalog (getIndex s)).Mag : ℝ) / 100.0
  else if catalogType s = CAT_DSO then
    ((idxGet s.dsoCatalog (getIndex s)).Mag : ℝ) / 100.0
  else if catalogType s = CAT_DSO_COMP then
    (if (idxGet s.dsoCompCatalog (getIndex s)).Mag = 255 then 99.9
     else ((idxGet s.dsoCompCatalog (getIndex s)).Mag : ℝ) / 10.0 - 2.5)
  else if catalogType s = CAT_DSO_VCOMP then
    (if (idxGet s.dsoVCompCatalog (getIndex s)).Mag = 255 then 99.9
     else ((idxGet s.dsoVCompCatalog (getIndex s)).Mag : ℝ) / 10.0 - 2.5)
  else 99.9

/-- Embedding of `CatMgr::magnitude2`: secondary magnitude (double-star secondary /
    variable-star minimum); 99.9 where not applicable. -/
noncomputable def magnitude2 (s : CatMgr) : ℝ :=
  if s.selected < 0 then 99.9
  else if catalogType s = CAT_DBL_STAR then
    ((idxGet s.dblStarCatalog (getIndex s)).Mag2 : ℝ) / 100.0
  else if catalogType s = CAT_DBL_STAR_COMP then
    (if (idxGet s.dblStarCompCatalog (getIndex s)).Mag2 = 255 then 99.9
     else ((idxGet s.dblStarCompCatalog (getIndex s)).Mag2 : ℝ) / 10.0 - 2.5)
  else if catalogType s = CAT_VAR_STAR then
    ((idxGet s.varStarCatalog (getIndex s)).Mag2 : ℝ) / 100.0
  else 99.9

/-- Embedding of `CatMgr::constellation`: constellation byte code; 89 with no selection,
    0 for an unmatched type. -/
def constellation (s : CatMgr) : ℕ :=
  if s.selected < 0 then 89
  else if catalogType s = CAT_GEN_STAR then (idxGet s.genStarCatalog (getIndex s)).Cons
  else if catalogType s = CAT_GEN_STAR_VCOMP then (idxGet s.genStarVCompCatalog (getIndex s)).Cons
  else if catalogType s = CAT_DBL_STAR then (idxGet s.dblStarCatalog (getIndex s)).Cons
  else if catalogType s = CAT_DBL_STAR_COMP then (idxGet s.dblStarCompCatalog (getIndex s)).Cons
  else if catalogType s = CAT_VAR_STAR then (idxGet s.varStarCatalog (getIndex s)).Cons
  else if catalogType s = CAT_DSO then (idxGet s.dsoCatalog (getIndex s)).Cons
  else if catalogType s = CAT_DSO_COMP then (idxGet s.dsoCompCatalog (getIndex s)).Cons
  else if catalogType s = CAT_DSO_VCOMP then (idxGet s.dsoVCompCatalog (getIndex s)).Cons
  else 0

/-- Embedding of `CatMgr::objectType`: returns `byte`, so the source's `return -1` paths
    wrap to 255; star types answer 2, DSO types read the record's code. -/
def objectType (s : CatMgr) : ℕ :=
  if s.selected < 0 then 255
  else if catalogType s = CAT_GEN_STAR then 2
  else if catalogType s = CAT_GEN_STAR_VCOMP then 2
  else if catalogType s = CAT_DBL_STAR then 2
  else if catalogType s = CAT_DBL_STAR_COMP then 2
  else if catalogType s = CAT_DSO then (idxGet s.dsoCatalog (getIndex s)).Obj_type
  else if catalogType s = CAT_DSO_COMP then (idxGet s.dsoCompCatalog (getIndex s)).Obj_type
  else if catalogType s = CAT_DSO_VCOMP then (idxGet s.dsoVCompCatalog (getIndex s)).Obj_type
  else 255

/-- Embedding of `CatMgr::positionAngle`: double-star position angle; -1 otherwise. -/
def positionAngle (s : CatMgr) : ℤ :=
  if s.selected < 0 then -1
  else if catalogType s = CAT_DBL_STAR then (idxGet s.dblStarCatalog (getIndex s)).PA
  else if catalogType s = CAT_DBL_STAR_COMP then (idxGet s.dblStarCompCatalog (getIndex s)).PA
  else -1

/-- Embedding of `CatMgr::separation`: double-star separation in arcseconds (stored in
    tenths); 999.9 otherwise. -/
noncomputable def separation (s : CatMgr) : ℝ :=
  if s.selected < 0 then 999.9
  else if catalogType s = CAT_DBL_STAR then
    ((idxGet s.dblStarCatalog (getIndex s)).Sep : ℝ) / 10.0
  else if catalogType s = CAT_DBL_STAR_COMP then
    ((idxGet s.dblStarCompCatalog (getIndex s)).Sep : ℝ) / 10.0
  else 999.9

/-- Embedding of `CatMgr::period`: variable-star period in days, decoded from the scaled
    integer (0..999 hundredths of a day, 1000..32766 shifted tenths,
    otherwise -1); -1 for other catalog types or no selection. -/
noncomputable def period (s : CatMgr) : ℝ :=
  if s.selected < 0 then -1
  else if catalogType s = CAT_VAR_STAR then
    let p : ℝ := ((idxGet s.varStarCatalog (getIndex s)).Period : ℝ)
    if 0 < p ∧ p ≤ 999 then p / 100.0
    else if 999 < p ∧ p ≤ 32766 then (p - 900) / 10.0
    else -1
  else -1

/-- Embedding of `CatMgr::primaryId`: the record's catalog number (implicit index + 1 for
    the very-compact types); -1 with no selection. -/
def primaryId (s : CatMgr) : ℤ :=
  if s.selected < 0 then -1
  else if catalogType s = CAT_GEN_STAR then (idxGet s.genStarCatalog (getIndex s)).Obj_id
  else if catalogType s = CAT_GEN_STAR_VCOMP then getIndex s + 1
  else if catalogType s = CAT_DBL_STAR then (idxGet s.dblStarCatalog (getIndex s)).Obj_id
  else if catalogType s = CAT_DBL_STAR_COMP then (idxGet s.dblStarCompCatalog (getIndex s)).Obj_id
  else if catalogType s = CAT_VAR_STAR then (idxGet s.varStarCatalog (getIndex s)).Obj_id
  else if catalogType s = CAT_DSO then (idxGet s.dsoCatalog (getIndex s)).Obj_id
  else if catalogType s = CAT_DSO_COMP then (idxGet s.dsoCompCatalog (getIndex s)).Obj_id
  else if catalogType s = CAT_DSO_VCOMP then getIndex s + 1
  else -1

/-- Embedding of `CatMgr::DistFromEqu`: angular distance (degrees) between the object under
    the cursor and the given equatorial coordinates. -/
noncomputable def DistFromEqu (s : CatMgr) (RA Dec : ℝ) : ℝ :=
  Real.arccos (Real.sin (dec s / Rad) * Real.sin (Dec / Rad) +
      Real.cos (dec s / Rad) * Real.cos (Dec / Rad) *
        Real.cos (ra s / Rad - RA / Rad)) * Rad

/-- First `isFiltered` criterion: below-horizon exclusion
    (`_fm & FM_ABOVE_HORIZON` and `alt() < 0.0`). -/
def critAboveHorizon (s : CatMgr) : Prop :=
  s.fm &&& FM_ABOVE_HORIZON ≠ 0 ∧ alt s < 0.0

/-- All-sky-alignment suitability, first test: altitude below 10 degrees. -/
def critAllSkyAlt (s : CatMgr) : Prop :=
  s.fm &&& FM_ALIGN_ALL_SKY ≠ 0 ∧ alt s < 10.0

/-- All-sky-alignment suitability, second test: declination magnitude above
    85 degrees (within 5 degrees of the pole). -/
def critAllSkyDec (s : CatMgr) : Prop :=
  s.fm &&& FM_ALIGN_ALL_SKY ≠ 0 ∧ |dec s| > 85.0

/-- Constellation-match criterion. -/
def critCon (s : CatMgr) : Prop :=
  s.fm &&& FM_CONSTELLATION ≠ 0 ∧ (constellation s : ℤ) ≠ s.fm_con

/-- Object-type criterion, applicable to deep-sky catalogs only. -/
def critObjType (s : CatMgr) : Prop :=
  isDsoCatalog s = true ∧ s.fm &&& FM_OBJ_TYPE ≠ 0 ∧
    (objectType s : ℤ) ≠ s.fm_obj_type

/-- Magnitude-ceiling criterion (`magnitude() >= _fm_mag_limit` excludes). -/
def critMag (s : CatMgr) : Prop :=
  s.fm &&& FM_BY_MAG ≠ 0 ∧ magnitude s ≥ s.fm_mag_limit

/-- Nearby-distance criterion against the last telescope pointing. -/
def critNearby (s : CatMgr) : Prop :=
  s.fm &&& FM_NEARBY ≠ 0 ∧
    DistFromEqu s s.lastTeleRA s.lastTeleDec ≥ s.fm_nearby_dist

/-- Double-star separation ceiling, applicable to double-star catalogs only. -/
def critDblMax (s : CatMgr) : Prop :=
  s.fm &&& FM_DBL_MAX_SEP ≠ 0 ∧ isDblStarCatalog s = true ∧
    separation s > s.fm_dbl_max

/-- Double-star separation floor, applicable to double-star catalogs only. -/
def critDblMin (s : CatMgr) : Prop :=
  s.fm &&& FM_DBL_MIN_SEP ≠ 0 ∧ isDblStarCatalog s = true ∧
    separation s < s.fm_dbl_min

/-- Variable-star period ceiling, applicable to variable-star catalogs only. -/
def critVarPer (s : CatMgr) : Prop :=
  s.fm &&& FM_VAR_MAX_PER ≠ 0 ∧ isVarStarCatalog s = true ∧
    period s > s.fm_var_max

open Classical in
/-- Embedding of `CatMgr::isFiltered`: true when the object under the cursor is excluded.
    The source is a sequence of independent `if (bit enabled) { if (criterion
    fails) return true; }` blocks; each such block is one arm of this
    if-chain (one named criterion), in the source's order.  Uninitialised
    observer state or an empty filter mask never filters. -/
noncomputable def isFiltered (s : CatMgr) : Bool :=
  if isInitialized s = false then false
  else if s.fm = FM_NONE then false
  else if critAboveHorizon s then true
  else if critAllSkyAlt s then true
  else if critAllSkyDec s then true
  else if critCon s then true
  else if critObjType s then true
  else if critMag s then true
  else if critNearby s then true
  else if critDblMax s then true
  else if critDblMin s then true
  else if critVarPer s then true
  else false

/-- The body of the `incIndex` do-while loop: `Index++` with wraparound to 0
    past `getMaxIndex()`. -/
def incBody (s : CatMgr) : CatMgr :=
  if getMaxIndex (setIdx s (getIndex s + 1)) < getIndex (setIdx s (getIndex s + 1)) then
    setIdx (setIdx s (getIndex s + 1)) 0
  else setIdx s (getIndex s + 1)

/-- The body of the `decIndex` do-while loop: `Index--` with wraparound to
    `getMaxIndex()` below 0. -/
def decBody (s : CatMgr) : CatMgr :=
  if getIndex (setIdx s (getIndex s - 1)) < 0 then
    setIdx (setIdx s (getIndex s - 1)) (getMaxIndex (setIdx s (getIndex s - 1)))
  else setIdx s (getIndex s - 1)

/-- The `incIndex` do-while: the fuel is the loop counter i (the source
    initialises `i = getMaxIndex()+1` and decrements before each body, looping
    while the new position is filtered and `i > 0`). -/
noncomputable def incLoop : ℕ → CatMgr → CatMgr
  | 0, s => s
  | i + 1, s =>
    if isFiltered (incBody s) = true ∧ 0 < i then incLoop i (incBody s) else incBody s

/-- The `decIndex` do-while, mirror of `incLoop`. -/
noncomputable def decLoop : ℕ → CatMgr → CatMgr
  | 0, s => s
  | i + 1, s =>
    if isFiltered (decBody s) = true ∧ 0 < i then decLoop i (decBody s) else decBody s

/-- The state after `CatMgr::incIndex`: the do-while body always executes at
    least once, even when `getMaxIndex()+1 ≤ 0`. -/
noncomputable def incIndexState (s : CatMgr) : CatMgr :=
  if 1 ≤ getMaxIndex s + 1 then incLoop (getMaxIndex s + 1).toNat s else incBody s

/-- Embedding of `CatMgr::incIndex`: runs the do-while and returns whether the final
    position is unfiltered, together with the new state. -/
noncomputable def incIndex (s : CatMgr) : Bool × CatMgr :=
  (Bool.not (isFiltered (incIndexState s)), incIndexState s)

/-- The state after `CatMgr::decIndex`. -/
noncomputable def decIndexState (s : CatMgr) : CatMgr :=
  if 1 ≤ getMaxIndex s + 1 then decLoop (getMaxIndex s + 1).toNat s else decBody s

/-- Embedding of `CatMgr::decIndex`, mirror of `incIndex`. -/
noncomputable def decIndex (s : CatMgr) : Bool × CatMgr :=
  (Bool.not (isFiltered (decIndexState s)), decIndexState s)

/-- Embedding of `CatMgr::cot`. -/
noncomputable def cot (n : ℝ) : ℝ :=
  1 / Real.tan n

/-- Embedding of `CatMgr::TrueRefrac`: Bennett/Saemundsson refraction in arcminutes at a
    true altitude (degrees), pressure (millibars) and temperature (Celsius),
    clamped below at 0.  The source declares default arguments
    Pressure = 1010, Temperature = 10 (modelled from the spec; the defaults
    live in the missing header). -/
noncomputable def TrueRefrac (Alt Pressure Temperature : ℝ) : ℝ :=
  if (1.02 * cot ((Alt + (10.3 / (Alt + 5.11))) / Rad)) *
      ((Pressure / 1010.0) * (283.0 / (273.0 + Temperature))) < 0 then 0
  else (1.02 * cot ((Alt + (10.3 / (Alt + 5.11))) / Rad)) *
      ((Pressure / 1010.0) * (283.0 / (273.0 + Temperature)))

/-- Embedding of `CatMgr::topocentricToObservedPlace`: RA (hours) and Dec (degrees) to the
    observed place: to horizon coordinates, refraction (arcminutes / 60) added
    to the altitude, and back; unchanged when not initialised. -/
noncomputable def topocentricToObservedPlace (s : CatMgr) (RA Dec : ℝ) : ℝ × ℝ :=
  if isInitialized s = true then
    let r := RA * 15.0
    let d := Dec
    let horizon := EquToHor s r d
    let Alt := horizon.1 + TrueRefrac horizon.1 1010 10 / 60.0
    let equ := HorToEqu s Alt horizon.2
    (equ.1 / 15.0, equ.2)
  else (RA, Dec)

/-- The per-record name-presence flag of record i, through the typed view the
    way each branch of `CatMgr::objectName` reads it; `none` models the final
    `else return -1` (unknown type). -/
def recHasName (s : CatMgr) (i : ℤ) : Option Bool :=
  if catalogType s = CAT_GEN_STAR then some (idxGet s.genStarCatalog i).Has_name
  else if catalogType s = CAT_GEN_STAR_VCOMP then some (idxGet s.genStarVCompCatalog i).Has_name
  else if catalogType s = CAT_DBL_STAR then some (idxGet s.dblStarCatalog i).Has_name
  else if catalogType s = CAT_DBL_STAR_COMP then some (idxGet s.dblStarCompCatalog i).Has_name
  else if catalogType s = CAT_VAR_STAR then some (idxGet s.varStarCatalog i).Has_name
  else if catalogType s = CAT_DSO then some (idxGet s.dsoCatalog i).Has_name
  else if catalogType s = CAT_DSO_COMP then some (idxGet s.dsoCompCatalog i).Has_name
  else if catalogType s = CAT_DSO_VCOMP then some (idxGet s.dsoVCompCatalog i).Has_name
  else none

/-- Embedding of `CatMgr::objectName`: -1 with no selection, no flag on the current record,
    an unknown type, or a cursor past `getMaxIndex()`; otherwise the count of
    flagged records at indices 0..Index inclusive, minus one. -/
def objectName (s : CatMgr) : ℤ :=
  if s.selected < 0 then -1
  else
    match recHasName s (getIndex s) with
    | none => -1
    | some false => -1
    | some true =>
      if getMaxIndex s < getIndex s then -1
      else if getIndex s < 0 then -1
      else ((List.range ((getIndex s).toNat + 1)).countP
          (fun i : ℕ => recHasName s (i : ℤ) = some true) : ℤ) - 1

/-- The first loop of `CatMgr::getElementFromString`: the character index at
    which element `n` of the semicolon-delimited string starts (`none` models
    `found == false`).  The `n == 0` test precedes the semicolon test, as in
    the source. -/
def findStart (cs : List Char) (n : ℤ) (i : ℕ) : Option ℕ :=
  match cs with
  | [] => none
  | c :: rest =>
    if n = 0 then some i
    else findStart rest (if c = ';' then n - 1 else n) (i + 1)

/-- The second loop of `CatMgr::getElementFromString`: copy characters until a
    semicolon (excluded) or the end of the string.  (The source copies into a
    fixed 40-byte buffer; the truncation at 40 characters is not modelled.) -/
def takeElem (cs : List Char) : List Char :=
  match cs with
  | [] => []
  | c :: rest => if c = ';' then [] else c :: takeElem rest

/-- Embedding of `CatMgr::getElementFromString`: the `elementNum`-th element of a
    semicolon-delimited string, "" when there are fewer elements. -/
def getElementFromString (data : String) (elementNum : ℤ) : String :=
  match findStart data.data elementNum 0 with
  | some j => String.mk (takeElem (data.data.drop j))
  | none => ""

/-- Embedding of `CatMgr::objectNameStr`: the name-table element selected by
    `objectName()`, "" with no selection or no name. -/
def objectNameStr (s : CatMgr) : String :=
  if s.selected < 0 then ""
  else
    let elementNum := objectName s
    if 0 ≤ elementNum then
      getElementFromString (s.catalog s.selected).ObjectNames elementNum
    else ""

/-! Basic state lemmas -/

theorem setIdx_getIndex (s : CatMgr) (v : ℤ) : getIndex (setIdx s v) = v := by
  simp [getIndex, setIdx, Function.update_same]

theorem setIdx_getMaxIndex (s : CatMgr) (v : ℤ) :
    getMaxIndex (setIdx s v) = getMaxIndex s := by
  simp [getMaxIndex, setIdx, Function.update_same]

theorem setIdx_setIdx (s : CatMgr) (a b : ℤ) :
    setIdx (setIdx s a) b = setIdx s b := by
  simp [setIdx, Function.update_idem]

theorem incBody_catalog_only (s : CatMgr) :
    ∃ f, incBody s = { s with catalog := f } := by
  unfold incBody
  split
  · exact ⟨_, rfl⟩
  · exact ⟨_, rfl⟩

theorem decBody_catalog_only (s : CatMgr) :
    ∃ f, decBody s = { s with catalog := f } := by
  unfold decBody
  split
  · exact ⟨_, rfl⟩
  · exact ⟨_, rfl⟩

theorem incLoop_catalog_only : ∀ (i : ℕ) (s : CatMgr),
    ∃ f, incLoop i s = { s with catalog := f } := by
  intro i
  induction i with
  | zero => intro s; exact ⟨s.catalog, rfl⟩
  | succ i ih =>
    intro s
    obtain ⟨f0, hf0⟩ := incBody_catalog_only s
    rw [incLoop]
    split
    · obtain ⟨f1, hf1⟩ := ih (incBody s)
      exact ⟨f1, by rw [hf1, hf0]⟩
    · exact ⟨f0, hf0⟩

theorem decLoop_catalog_only : ∀ (i : ℕ) (s : CatMgr),
    ∃ f, decLoop i s = { s with catalog := f } := by
  intro i
  induction i with
  | zero => intro s; exact ⟨s.catalog, rfl⟩
  | succ i ih =>
    intro s
    obtain ⟨f0, hf0⟩ := decBody_catalog_only s
    rw [decLoop]
    split
    · obtain ⟨f1, hf1⟩ := ih (decBody s)
      exact ⟨f1, by rw [hf1, hf0]⟩
    · exact ⟨f0, hf0⟩

theorem incIndexState_catalog_only (s : CatMgr) :
    ∃ f, incIndexState s = { s with catalog := f } := by
  unfold incIndexState
  split
  · exact incLoop_catalog_only _ s
  · exact incBody_catalog_only s

theorem decIndexState_catalog_only (s : CatMgr) :
    ∃ f, decIndexState s = { s with catalog := f } := by
  unfold decIndexState
  split
  · exact decLoop_catalog_only _ s
  · exact decBody_catalog_only s

theorem incIndex_fst (s : CatMgr) :
    (incIndex s).1 = Bool.not (isFiltered (incIndex s).2) := rfl

theorem decIndex_fst (s : CatMgr) :
    (decIndex s).1 = Bool.not (isFiltered (decIndex s).2) := rfl

/-! Filter lemmas -/

theorem isFiltered_of_fm_none (s : CatMgr) (h : s.fm = FM_NONE) :
    isFiltered s = false := by
  unfold isFiltered
  rw [h]
  by_cases hb : isInitialized s = false
  · rw [if_pos hb]
  · rw [if_neg hb, if_pos rfl]

theorem isFiltered_of_uninitialized (s : CatMgr) (h : isInitialized s = false) :
    isFiltered s = false := by
  unfold isFiltered
  rw [h]
  rw [if_pos rfl]

/-- The extensional content of the `isFiltered` if-chain: filtered exactly when
    the observer state is initialised, the mask is nonempty, and some enabled,
    applicable criterion fails. -/
theorem isFiltered_eq_true_iff (s : CatMgr) :
    isFiltered s = true ↔ (isInitialized s = true ∧ s.fm ≠ FM_NONE ∧
      (critAboveHorizon s ∨ critAllSkyAlt s ∨ critAllSkyDec s ∨ critCon s ∨
       critObjType s ∨ critMag s ∨ critNearby s ∨ critDblMax s ∨ critDblMin s ∨
       critVarPer s)) := by
  cases hb : isInitialized s with
  | false =>
    rw [isFiltered_of_uninitialized s hb]
    simp [hb]
  | true =>
    unfold isFiltered
    rw [hb]
    rw [if_neg (by simp)]
    by_cases h2 : s.fm = FM_NONE
    · rw [if_pos h2]
      simp [h2]
    · rw [if_neg h2]
      by_cases h3 : critAboveHorizon s
      · rw [if_pos h3]; tauto
      · rw [if_neg h3]
        by_cases h4 : critAllSkyAlt s
        · rw [if_pos h4]; tauto
        · rw [if_neg h4]
          by_cases h5 : critAllSkyDec s
          · rw [if_pos h5]; tauto
          · rw [if_neg h5]
            by_cases h6 : critCon s
            · rw [if_pos h6]; tauto
            · rw [if_neg h6]
              by_cases h7 : critObjType s
              · rw [if_pos h7]; tauto
              · rw [if_neg h7]
                by_cases h8 : critMag s
                · rw [if_pos h8]; tauto
                · rw [if_neg h8]
                  by_cases h9 : critNearby s
                  · rw [if_pos h9]; tauto
                  · rw [if_neg h9]
                    by_cases h10 : critDblMax s
                    · rw [if_pos h10]; tauto
                    · rw [if_neg h10]
                      by_cases h11 : critDblMin s
                      · rw [if_pos h11]; tauto
                      · rw [if_neg h11]
                        by_cases h12 : critVarPer s
                        · rw [if_pos h12]; tauto
                        · rw [if_neg h12]; tauto

/-! Navigation loop characterisation -/

theorem incBody_eq_setIdx (s : CatMgr) (h0 : 0 ≤ getIndex s)
    (h1 : getIndex s ≤ getMaxIndex s) :
    incBody s = setIdx s ((getIndex s + 1) % (getMaxIndex s + 1)) := by
  unfold incBody
  simp only [setIdx_getIndex, setIdx_getMaxIndex, setIdx_setIdx]
  rcases lt_or_le (getIndex s + 1) (getMaxIndex s + 1) with h | h
  · rw [if_neg (by omega), Int.emod_eq_of_lt (by omega) h]
  · have hEq : getIndex s + 1 = getMaxIndex s + 1 := by omega
    rw [if_pos (by omega), hEq, Int.emod_self]

theorem decBody_eq_setIdx (s : CatMgr) (h0 : 0 ≤ getIndex s)
    (h1 : getIndex s ≤ getMaxIndex s) :
    decBody s = setIdx s ((getIndex s - 1) % (getMaxIndex s + 1)) := by
  unfold decBody
  simp only [setIdx_getIndex, setIdx_getMaxIndex, setIdx_setIdx]
  rcases lt_or_le (getIndex s - 1) 0 with h | h
  · rw [if_pos h]
    congr 1
    have hp : getIndex s = 0 := by omega
    rw [hp, show (0 : ℤ) - 1 =
        (getMaxIndex s + 1 - 1) + (getMaxIndex s + 1) * (-1) by ring,
      Int.add_mul_emod_self_left, Int.emod_eq_of_lt (by omega) (by omega)]
    omega
  · rw [if_neg (by omega), Int.emod_eq_of_lt (by omega) (by omega)]

theorem incBody_iterate (s : CatMgr) (h0 : 0 ≤ getIndex s)
    (h1 : getIndex s ≤ getMaxIndex s) :
    ∀ k : ℕ, 1 ≤ k →
      incBody^[k] s = setIdx s ((getIndex s + k) % (getMaxIndex s + 1)) := by
  intro k
  induction k with
  | zero => omega
  | succ k ih =>
    intro _
    rcases Nat.eq_zero_or_pos k with hk | hk
    · subst hk
      simpa using incBody_eq_setIdx s h0 h1
    · have hN : (0 : ℤ) < getMaxIndex s + 1 := by omega
      rw [Function.iterate_succ_apply', ih hk]
      set j : ℤ := (getIndex s + k) % (getMaxIndex s + 1) with hj
      have hj0 : 0 ≤ j := Int.emod_nonneg _ (by omega)
      have hj1 : j < getMaxIndex s + 1 := Int.emod_lt_of_pos _ hN
      rw [incBody_eq_setIdx (setIdx s j) (by rw [setIdx_getIndex]; exact hj0)
        (by rw [setIdx_getIndex, setIdx_getMaxIndex]; omega)]
      rw [setIdx_getIndex, setIdx_getMaxIndex, setIdx_setIdx, hj,
        Int.emod_add_emod]
      congr 1
      push_cast
      ring

theorem decBody_iterate (s : CatMgr) (h0 : 0 ≤ getIndex s)
    (h1 : getIndex s ≤ getMaxIndex s) :
    ∀ k : ℕ, 1 ≤ k →
      decBody^[k] s = setIdx s ((getIndex s - k) % (getMaxIndex s + 1)) := by
  intro k
  induction k with
  | zero => omega
  | succ k ih =>
    intro _
    rcases Nat.eq_zero_or_pos k with hk | hk
    · subst hk
      simpa using decBody_eq_setIdx s h0 h1
    · have hN : (0 : ℤ) < getMaxIndex s + 1 := by omega
      rw [Function.iterate_succ_apply', ih hk]
      set j : ℤ := (getIndex s - k) % (getMaxIndex s + 1) with hj
      have hj0 : 0 ≤ j := Int.emod_nonneg _ (by omega)
      have hj1 : j < getMaxIndex s + 1 := Int.emod_lt_of_pos _ hN
      rw [decBody_eq_setIdx (setIdx s j) (by rw [setIdx_getIndex]; exact hj0)
        (by rw [setIdx_getIndex, setIdx_getMaxIndex]; omega)]
      rw [setIdx_getIndex, setIdx_getMaxIndex, setIdx_setIdx, hj]
      congr 1
      conv_lhs => rw [Int.sub_emod, Int.emod_emod_of_dvd _ (dvd_refl _)]
      rw [← Int.sub_emod]
      congr 1
      push_cast
      ring

theorem incLoop_spec : ∀ (i : ℕ) (s : CatMgr), 1 ≤ i →
    ∃ k : ℕ, 1 ≤ k ∧ k ≤ i ∧ incLoop i s = incBody^[k] s ∧
      (isFiltered (incLoop i s) = true → incLoop i s = incBody^[i] s) := by
  intro i
  induction i with
  | zero => omega
  | succ i ih =>
    intro s _
    rcases Nat.eq_zero_or_pos i with hi | hi
    · subst hi
      refine ⟨1, le_refl 1, le_refl 1, ?_, ?_⟩
      · show (if isFiltered (incBody s) = true ∧ 0 < 0 then incLoop 0 (incBody s)
            else incBody s) = incBody^[1] s
        simp
      · intro _
        show (if isFiltered (incBody s) = true ∧ 0 < 0 then incLoop 0 (incBody s)
            else incBody s) = incBody^[1] s
        simp
    · show ∃ k, 1 ≤ k ∧ k ≤ i + 1 ∧
        (if isFiltered (incBody s) = true ∧ 0 < i then incLoop i (incBody s)
          else incBody s) = incBody^[k] s ∧
        (isFiltered (if isFiltered (incBody s) = true ∧ 0 < i then
            incLoop i (incBody s) else incBody s) = true →
          (if isFiltered (incBody s) = true ∧ 0 < i then incLoop i (incBody s)
            else incBody s) = incBody^[i + 1] s)
      by_cases hcond : isFiltered (incBody s) = true ∧ 0 < i
      · obtain ⟨k, hk1, hk2, hk3, hk4⟩ := ih (incBody s) hi
        rw [if_pos hcond]
        refine ⟨k + 1, by omega, by omega, ?_, ?_⟩
        · rw [Function.iterate_succ_apply, hk3]
        · intro hfil
          rw [Function.iterate_succ_apply, hk4 hfil]
      · rw [if_neg hcond]
        refine ⟨1, le_refl 1, by omega, by simp, ?_⟩
        intro hfil
        exact absurd ⟨hfil, hi⟩ hcond

theorem decLoop_spec : ∀ (i : ℕ) (s : CatMgr), 1 ≤ i →
    ∃ k : ℕ, 1 ≤ k ∧ k ≤ i ∧ decLoop i s = decBody^[k] s ∧
      (isFiltered (decLoop i s) = true → decLoop i s = decBody^[i] s) := by
  intro i
  induction i with
  | zero => omega
  | succ i ih =>
    intro s _
    rcases Nat.eq_zero_or_pos i with hi | hi
    · subst hi
      refine ⟨1, le_refl 1, le_refl 1, ?_, ?_⟩
      · show (if isFiltered (decBody s) = true ∧ 0 < 0 then decLoop 0 (decBody s)
            else decBody s) = decBody^[1] s
        simp
      · intro _
        show (if isFiltered (decBody s) = true ∧ 0 < 0 then decLoop 0 (decBody s)
            else decBody s) = decBody^[1] s
        simp
    · show ∃ k, 1 ≤ k ∧ k ≤ i + 1 ∧
        (if isFiltered (decBody s) = true ∧ 0 < i then decLoop i (decBody s)
          else decBody s) = decBody^[k] s ∧
        (isFiltered (if isFiltered (decBody s) = true ∧ 0 < i then
            decLoop i (decBody s) else decBody s) = true →
          (if isFiltered (decBody s) = true ∧ 0 < i then decLoop i (decBody s)
            else decBody s) = decBody^[i + 1] s)
      by_cases hcond : isFiltered (decBody s) = true ∧ 0 < i
      · obtain ⟨k, hk1, hk2, hk3, hk4⟩ := ih (decBody s) hi
        rw [if_pos hcond]
        refine ⟨k + 1, by omega, by omega, ?_, ?_⟩
        · rw [Function.iterate_succ_apply, hk3]
        · intro hfil
          rw [Function.iterate_succ_apply, hk4 hfil]
      · rw [if_neg hcond]
        refine ⟨1, le_refl 1, by omega, by simp, ?_⟩
        intro hfil
        exact absurd ⟨hfil, hi⟩ hcond

/-! Concrete sample registries and states -/

/-- The registry sentinel row (record count 0, type `CAT_NONE`). -/
def sentinelCat : catalog_t :=
  { Title := "", Pfx := "", NumObjects := 0, Objects := CatData.noData,
    ObjectNames := "", ObjectSubIds := "", CatalogType := CAT_NONE,
    Epoch := 0, Index := 0 }

/-- A manager state over the given registry rows (memory past the array is
    modelled as sentinel-valued), with a 45-degree-latitude observer, LST seed
    1 h, empty filter, no selection, no views bound. -/
def mkMgr (rows : List catalog_t) : CatMgr :=
  { catalog := fun i =>
      if h : 0 ≤ i ∧ i.toNat < rows.length then rows.get ⟨i.toNat, h.2⟩
      else sentinelCat,
    catalogLen := rows.length,
    lat := 45, cosLat := 1, sinLat := 0, lstT0 := 1, lstMillisT0 := 0,
    nowMs := 0, lastTeleRA := 0, lastTeleDec := 0, selected := -1,
    fm := FM_NONE, fm_con := 0, fm_mag_limit := 100, fm_nearby_dist := 9999,
    fm_obj_type := 0, fm_dbl_min := 0, fm_dbl_max := 0, fm_var_max := 0,
    genStarCatalog := none, genStarVCompCatalog := none, dblStarCatalog := none,
    dblStarCompCatalog := none, varStarCatalog := none, dsoCatalog := none,
    dsoCompCatalog := none, dsoVCompCatalog := none }

/-- A sample full-precision star record. -/
def gsRec (mag : ℤ) (hasName : Bool) : gen_star_t :=
  { RA := 1, DE := 2, Mag := mag, Cons := 3, BayerFlam := 0,
    Has_name := hasName, Has_subId := false, Obj_id := 7 }

/-- A sample compact double-star record. -/
def dscRec : dbl_star_comp_t :=
  { RA := 100, DE := 200, Mag := 80, Mag2 := 90, PA := 10, Sep := 55,
    Cons := 3, BayerFlam := 0, Has_name := false, Has_subId := false,
    Obj_id := 1 }

/-- A sample very-compact star record with the given magnitude byte. -/
def vcRec (mag : ℕ) : gen_star_vcomp_t :=
  { RA := 100, DE := 200, Mag := mag, Cons := 3, BayerFlam := 0,
    Has_name := false, Has_subId := false }

/-- A three-record full-precision star catalog. -/
def genCat3 : catalog_t :=
  { Title := "Stars", Pfx := "Star ", NumObjects := 3,
    Objects := CatData.genStar [gsRec 100 false, gsRec 200 false, gsRec 300 false],
    ObjectNames := "", ObjectSubIds := "", CatalogType := CAT_GEN_STAR,
    Epoch := 2000, Index := 0 }

/-- A one-record compact double-star catalog. -/
def dblCompCat1 : catalog_t :=
  { Title := "Dbl", Pfx := "STF", NumObjects := 1,
    Objects := CatData.dblStarComp [dscRec],
    ObjectNames := "", ObjectSubIds := "", CatalogType := CAT_DBL_STAR_COMP,
    Epoch := 2000, Index := 0 }

/-- A one-record very-compact star catalog with an unknown (255) magnitude. -/
def vcCat255 : catalog_t :=
  { Title := "VC", Pfx := "S", NumObjects := 1,
    Objects := CatData.genStarVComp [vcRec 255],
    ObjectNames := "", ObjectSubIds := "", CatalogType := CAT_GEN_STAR_VCOMP,
    Epoch := 2000, Index := 0 }

/-- Registry used by the C1 theorem: a compact double-star catalog followed by
    a full-precision star catalog. -/
def regC1 : List catalog_t := [dblCompCat1, genCat3, sentinelCat]

/-- Registry with one star catalog. -/
def regC2 : List catalog_t := [genCat3, sentinelCat]

/-! Claims -/

/-- Claim C1 (code bug): the source's `CatMgr::select` resets only six of the
    eight typed-view pointers (`_dblStarCompCatalog` and `_varStarCatalog` are
    missing from its reset list).  Evaluating the embedded code: after
    selecting the compact double-star catalog 0 and then the generic-star
    catalog 1, BOTH the generic-star view and the stale compact double-star
    view are bound (the claim and spec require exactly one); and after a
    subsequent invalid `select(-3)` the selection is the sentinel -1 yet the
    stale compact double-star view is still bound (the claim requires all
    views unset). -/
theorem C1_select_stale_view_bug :
    ((select (select (mkMgr regC1) 0) 1).genStarCatalog.isSome = true ∧
     (select (select (mkMgr regC1) 0) 1).dblStarCompCatalog.isSome = true) ∧
    ((select (select (mkMgr regC1) 0) (-3)).selected = -1 ∧
     (select (select (mkMgr regC1) 0) (-3)).dblStarCompCatalog.isSome = true) := by
  refine ⟨⟨rfl, rfl⟩, by decide, rfl⟩

/-- Claim C2 (code bug): after an invalid selection every listed accessor does
    return its documented sentinel (99.9, 99.9, -1, 999.9, -1, -1, "", "",
    -1), but `catalogType()` — and through it `dec()` — evaluates
    `catalog[_selected]` with `_selected = -1`, a registry read outside the
    array bounds (undefined behaviour in C), contradicting the claim that no
    accessor ever indexes the registry out of bounds. -/
theorem C2_unselected_sentinels_and_oob_read :
    magnitude (select (mkMgr regC2) 99) = 99.9 ∧
    magnitude2 (select (mkMgr regC2) 99) = 99.9 ∧
    positionAngle (select (mkMgr regC2) 99) = -1 ∧
    separation (select (mkMgr regC2) 99) = 999.9 ∧
    period (select (mkMgr regC2) 99) = -1 ∧
    primaryId (select (mkMgr regC2) 99) = -1 ∧
    catalogTitle (select (mkMgr regC2) 99) = "" ∧
    catalogPrefixText (select (mkMgr regC2) 99) = "" ∧
    epoch (select (mkMgr regC2) 99) = -1 ∧
    (select (mkMgr regC2) 99).selected = -1 ∧
    registryGetO (select (mkMgr regC2) 99) (select (mkMgr regC2) 99).selected = none ∧
    ¬ inBoundsRead (select (mkMgr regC2) 99) (select (mkMgr regC2) 99).selected := by
  refine ⟨rfl, rfl, by decide, rfl, rfl, by decide, rfl, rfl, by decide, by decide,
    rfl, fun h => absurd h.1 (by decide)⟩

/-! Cursor stepping lemmas -/

theorem isFiltered_incBody_of_fm_none (t : CatMgr) (hfm : t.fm = FM_NONE) :
    isFiltered (incBody t) = false := by
  obtain ⟨f, hf⟩ := incBody_catalog_only t
  rw [hf]
  exact isFiltered_of_fm_none _ hfm

theorem isFiltered_decBody_of_fm_none (t : CatMgr) (hfm : t.fm = FM_NONE) :
    isFiltered (decBody t) = false := by
  obtain ⟨f, hf⟩ := decBody_catalog_only t
  rw [hf]
  exact isFiltered_of_fm_none _ hfm

theorem incIndexState_of_fm_none (t : CatMgr) (hfm : t.fm = FM_NONE)
    (hN : 1 ≤ getMaxIndex t + 1) : incIndexState t = incBody t := by
  unfold incIndexState
  rw [if_pos hN]
  obtain ⟨k, hk⟩ : ∃ k, (getMaxIndex t + 1).toNat = k + 1 :=
    ⟨(getMaxIndex t + 1).toNat - 1, by omega⟩
  rw [hk, incLoop, if_neg]
  intro hcond
  rw [isFiltered_incBody_of_fm_none t hfm] at hcond
  exact Bool.false_ne_true hcond.1

theorem decIndexState_of_fm_none (t : CatMgr) (hfm : t.fm = FM_NONE)
    (hN : 1 ≤ getMaxIndex t + 1) : decIndexState t = decBody t := by
  unfold decIndexState
  rw [if_pos hN]
  obtain ⟨k, hk⟩ : ∃ k, (getMaxIndex t + 1).toNat = k + 1 :=
    ⟨(getMaxIndex t + 1).toNat - 1, by omega⟩
  rw [hk, decLoop, if_neg]
  intro hcond
  rw [isFiltered_decBody_of_fm_none t hfm] at hcond
  exact Bool.false_ne_true hcond.1

theorem neg_one_emod_eq (M : ℤ) (h : 0 ≤ M) : (-1) % (M + 1) = M := by
  rw [show (-1 : ℤ) = M + (M + 1) * (-1) by ring, Int.add_mul_emod_self_left,
    Int.emod_eq_of_lt h (by omega)]

theorem getIndex_incBody (s : CatMgr) (h0 : 0 ≤ getIndex s)
    (h1 : getIndex s ≤ getMaxIndex s) :
    getIndex (incBody s) =
      (if getIndex s = getMaxIndex s then 0 else getIndex s + 1) := by
  rw [incBody_eq_setIdx s h0 h1, setIdx_getIndex]
  by_cases hp : getIndex s = getMaxIndex s
  · rw [if_pos hp, hp, Int.emod_self]
  · rw [if_neg hp, Int.emod_eq_of_lt (by omega) (by omega)]

theorem getIndex_decBody (s : CatMgr) (h0 : 0 ≤ getIndex s)
    (h1 : getIndex s ≤ getMaxIndex s) :
    getIndex (decBody s) =
      (if getIndex s = 0 then getMaxIndex s else getIndex s - 1) := by
  rw [decBody_eq_setIdx s h0 h1, setIdx_getIndex]
  by_cases hp : getIndex s = 0
  · rw [if_pos hp, hp, show (0 : ℤ) - 1 = -1 by ring,
      neg_one_emod_eq _ (by omega)]
  · rw [if_neg hp, Int.emod_eq_of_lt (by omega) (by omega)]

theorem getMaxIndex_incBody (s : CatMgr) (h0 : 0 ≤ getIndex s)
    (h1 : getIndex s ≤ getMaxIndex s) :
    getMaxIndex (incBody s) = getMaxIndex s := by
  rw [incBody_eq_setIdx s h0 h1, setIdx_getMaxIndex]

/-- Claim C3: with an empty filter, on a selected non-empty catalog with the
    cursor at a valid position p, `incIndex` moves the cursor to p+1 (to 0 at
    the last index), `decIndex` moves it to p-1 (to the last index at 0), both
    report success, and `incIndex` followed by `decIndex` restores the cursor. -/
theorem C3_empty_filter_stepping (s : CatMgr)
    (hsel : 0 ≤ s.selected) (hselN : s.selected < numCatalogs s)
    (hfm : s.fm = FM_NONE)
    (hne : 0 < getMaxIndex s + 1)
    (h0 : 0 ≤ getIndex s) (h1 : getIndex s ≤ getMaxIndex s) :
    ((incIndex s).1 = true ∧
     getIndex (incIndex s).2 =
       (if getIndex s = getMaxIndex s then 0 else getIndex s + 1)) ∧
    ((decIndex s).1 = true ∧
     getIndex (decIndex s).2 =
       (if getIndex s = 0 then getMaxIndex s else getIndex s - 1)) ∧
    getIndex (decIndex (incIndex s).2).2 = getIndex s := by
  have hNat1 : (1 : ℤ) ≤ getMaxIndex s + 1 := by omega
  have hinc2 : (incIndex s).2 = incBody s := incIndexState_of_fm_none s hfm hNat1
  have hdec2 : (decIndex s).2 = decBody s := decIndexState_of_fm_none s hfm hNat1
  have hincf : (incIndex s).1 = true := by
    show Bool.not (isFiltered (incIndexState s)) = true
    rw [show incIndexState s = incBody s from incIndexState_of_fm_none s hfm hNat1,
      isFiltered_incBody_of_fm_none s hfm]
    rfl
  have hdecf : (decIndex s).1 = true := by
    show Bool.not (isFiltered (decIndexState s)) = true
    rw [show decIndexState s = decBody s from decIndexState_of_fm_none s hfm hNat1,
      isFiltered_decBody_of_fm_none s hfm]
    rfl
  refine ⟨⟨hincf, ?_⟩, ⟨hdecf, ?_⟩, ?_⟩
  · rw [hinc2]
    exact getIndex_incBody s h0 h1
  · rw [hdec2]
    exact getIndex_decBody s h0 h1
  · -- round trip: the state after incIndex still has an empty filter and the
    -- same catalog geometry, so decIndex steps straight back.
    rw [hinc2]
    have hfm2 : (incBody s).fm = FM_NONE := by
      obtain ⟨f, hf⟩ := incBody_catalog_only s
      rw [hf]
      exact hfm
    have hmax2 : getMaxIndex (incBody s) = getMaxIndex s := getMaxIndex_incBody s h0 h1
    have hcur2 : getIndex (incBody s) =
        (if getIndex s = getMaxIndex s then 0 else getIndex s + 1) :=
      getIndex_incBody s h0 h1
    have h02 : 0 ≤ getIndex (incBody s) := by rw [hcur2]; split <;> omega
    have h12 : getIndex (incBody s) ≤ getMaxIndex (incBody s) := by
      rw [hcur2, hmax2]
      split <;> omega
    have hdec2' : (decIndex (incBody s)).2 = decBody (incBody s) :=
      decIndexState_of_fm_none (incBody s) hfm2 (by rw [hmax2]; omega)
    rw [hdec2', getIndex_decBody (incBody s) h02 h12, hcur2]
    by_cases hp : getIndex s = getMaxIndex s
    · rw [if_pos hp, if_pos rfl, hmax2, hp]
    · rw [if_neg hp, if_neg (by omega)]
      omega

/-- Claim C4: filtered navigation always terminates within `record_count`
    cursor steps; it reports success exactly when the final cursor position is
    unfiltered; and when every position of the catalog is filtered it reports
    failure with the cursor back at its starting position (so repeated calls
    are stable). -/
theorem C4_navigation_bounded (s : CatMgr)
    (hsel : 0 ≤ s.selected) (hselN : s.selected < numCatalogs s)
    (hne : 0 < getMaxIndex s + 1)
    (h0 : 0 ≤ getIndex s) (h1 : getIndex s ≤ getMaxIndex s) :
    ((∃ k : ℕ, 1 ≤ k ∧ (k : ℤ) ≤ getMaxIndex s + 1 ∧
        (incIndex s).2 = incBody^[k] s) ∧
     ((incIndex s).1 = true ↔ isFiltered (incIndex s).2 = false) ∧
     ((∀ j : ℤ, 0 ≤ j → j ≤ getMaxIndex s → isFiltered (setIdx s j) = true) →
        (incIndex s).1 = false ∧ getIndex (incIndex s).2 = getIndex s)) ∧
    ((∃ k : ℕ, 1 ≤ k ∧ (k : ℤ) ≤ getMaxIndex s + 1 ∧
        (decIndex s).2 = decBody^[k] s) ∧
     ((decIndex s).1 = true ↔ isFiltered (decIndex s).2 = false) ∧
     ((∀ j : ℤ, 0 ≤ j → j ≤ getMaxIndex s → isFiltered (setIdx s j) = true) →
        (decIndex s).1 = false ∧ getIndex (decIndex s).2 = getIndex s)) := by
  have hN1 : (1 : ℤ) ≤ getMaxIndex s + 1 := by omega
  have hNnat : 1 ≤ (getMaxIndex s + 1).toNat := by omega
  have hNcast : ((getMaxIndex s + 1).toNat : ℤ) = getMaxIndex s + 1 := by omega
  have hincState : incIndexState s = incLoop (getMaxIndex s + 1).toNat s := by
    unfold incIndexState
    rw [if_pos hN1]
  have hdecState : decIndexState s = decLoop (getMaxIndex s + 1).toNat s := by
    unfold decIndexState
    rw [if_pos hN1]
  obtain ⟨k, hk1, hk2, hk3, hk4⟩ := incLoop_spec (getMaxIndex s + 1).toNat s hNnat
  obtain ⟨k', hk1', hk2', hk3', hk4'⟩ := decLoop_spec (getMaxIndex s + 1).toNat s hNnat
  have hwrapN : (getIndex s + ((getMaxIndex s + 1).toNat : ℤ)) % (getMaxIndex s + 1) =
      getIndex s := by
    rw [hNcast, show getIndex s + (getMaxIndex s + 1) =
        getIndex s + (getMaxIndex s + 1) * 1 by ring,
      Int.add_mul_emod_self_left, Int.emod_eq_of_lt (by omega) (by omega)]
  have hwrapN' : (getIndex s - ((getMaxIndex s + 1).toNat : ℤ)) % (getMaxIndex s + 1) =
      getIndex s := by
    rw [hNcast, show getIndex s - (getMaxIndex s + 1) =
        getIndex s + (getMaxIndex s + 1) * (-1) by ring,
      Int.add_mul_emod_self_left, Int.emod_eq_of_lt (by omega) (by omega)]
  constructor
  · refine ⟨⟨k, hk1, by omega, by rw [show (incIndex s).2 = incIndexState s from rfl,
      hincState, hk3]⟩, ?_, ?_⟩
    · show Bool.not (isFiltered (incIndexState s)) = true ↔
        isFiltered (incIndexState s) = false
      cases isFiltered (incIndexState s) <;> simp
    · intro hall
      have hfinal : isFiltered (incLoop (getMaxIndex s + 1).toNat s) = true := by
        rw [hk3, incBody_iterate s h0 h1 k hk1]
        exact hall _ (Int.emod_nonneg _ (by omega))
          (by have := Int.emod_lt_of_pos (getIndex s + k) (show (0:ℤ) < getMaxIndex s + 1 by omega); omega)
      have hfull := hk4 hfinal
      constructor
      · show Bool.not (isFiltered (incIndexState s)) = false
        rw [hincState, hfinal]
        rfl
      · show getIndex (incIndexState s) = getIndex s
        rw [hincState, hfull, incBody_iterate s h0 h1 _ hNnat, setIdx_getIndex, hwrapN]
  · refine ⟨⟨k', hk1', by omega, by rw [show (decIndex s).2 = decIndexState s from rfl,
      hdecState, hk3']⟩, ?_, ?_⟩
    · show Bool.not (isFiltered (decIndexState s)) = true ↔
        isFiltered (decIndexState s) = false
      cases isFiltered (decIndexState s) <;> simp
    · intro hall
      have hfinal : isFiltered (decLoop (getMaxIndex s + 1).toNat s) = true := by
        rw [hk3', decBody_iterate s h0 h1 k' hk1']
        exact hall _ (Int.emod_nonneg _ (by omega))
          (by have := Int.emod_lt_of_pos (getIndex s - k') (show (0:ℤ) < getMaxIndex s + 1 by omega); omega)
      have hfull := hk4' hfinal
      constructor
      · show Bool.not (isFiltered (decIndexState s)) = false
        rw [hdecState, hfinal]
        rfl
      · show getIndex (decIndexState s) = getIndex s
        rw [hdecState, hfull, decBody_iterate s h0 h1 _ hNnat, setIdx_getIndex, hwrapN']

/-- Concrete navigation state: the star catalog of `regC2` selected, cursor
    at position 1, empty filter. -/
def sNav : CatMgr := setIdx (select (mkMgr regC2) 0) 1

/-- Witness for C3 at `sNav`. -/
theorem C3_empty_filter_stepping_witness :
    (0 ≤ sNav.selected ∧ sNav.selected < numCatalogs sNav ∧ sNav.fm = FM_NONE ∧
     0 < getMaxIndex sNav + 1 ∧ 0 ≤ getIndex sNav ∧
     getIndex sNav ≤ getMaxIndex sNav) ∧
    (((incIndex sNav).1 = true ∧
      getIndex (incIndex sNav).2 =
        (if getIndex sNav = getMaxIndex sNav then 0 else getIndex sNav + 1)) ∧
     ((decIndex sNav).1 = true ∧
      getIndex (decIndex sNav).2 =
        (if getIndex sNav = 0 then getMaxIndex sNav else getIndex sNav - 1)) ∧
     getIndex (decIndex (incIndex sNav).2).2 = getIndex sNav) :=
  ⟨⟨by decide, by decide, by decide, by decide, by decide, by decide⟩,
   C3_empty_filter_stepping sNav (by decide) (by decide) (by decide) (by decide)
     (by decide) (by decide)⟩

/-- Witness for C4 at `sNav`. -/
theorem C4_navigation_bounded_witness :
    (0 ≤ sNav.selected ∧ sNav.selected < numCatalogs sNav ∧
     0 < getMaxIndex sNav + 1 ∧ 0 ≤ getIndex sNav ∧
     getIndex sNav ≤ getMaxIndex sNav) ∧
    (((∃ k : ℕ, 1 ≤ k ∧ (k : ℤ) ≤ getMaxIndex sNav + 1 ∧
         (incIndex sNav).2 = incBody^[k] sNav) ∧
      ((incIndex sNav).1 = true ↔ isFiltered (incIndex sNav).2 = false) ∧
      ((∀ j : ℤ, 0 ≤ j → j ≤ getMaxIndex sNav →
          isFiltered (setIdx sNav j) = true) →
         (incIndex sNav).1 = false ∧ getIndex (incIndex sNav).2 = getIndex sNav)) ∧
     ((∃ k : ℕ, 1 ≤ k ∧ (k : ℤ) ≤ getMaxIndex sNav + 1 ∧
         (decIndex sNav).2 = decBody^[k] sNav) ∧
      ((decIndex sNav).1 = true ↔ isFiltered (decIndex sNav).2 = false) ∧
      ((∀ j : ℤ, 0 ≤ j → j ≤ getMaxIndex sNav →
          isFiltered (setIdx sNav j) = true) →
         (decIndex sNav).1 = false ∧ getIndex (decIndex sNav).2 = getIndex sNav))) :=
  ⟨⟨by decide, by decide, by decide, by decide, by decide⟩,
   C4_navigation_bounded sNav (by decide) (by decide) (by decide) (by decide)
     (by decide)⟩

/-- Claim C5: the filter evaluator returns false whenever the observer state
    is uninitialised or no criterion is enabled; otherwise it excludes exactly
    when some enabled, applicable criterion fails — the criteria, in the
    source's fixed short-circuit order, being below-horizon, all-sky altitude,
    all-sky declination, constellation, object type (deep-sky only),
    magnitude, nearby distance, separation ceiling then floor (double-star
    only), and period ceiling (variable only); and criteria inapplicable to
    the active catalog type never exclude on their own. -/
theorem C5_isFiltered_structure (s : CatMgr) :
    (isInitialized s = false → isFiltered s = false) ∧
    (s.fm = FM_NONE → isFiltered s = false) ∧
    (isFiltered s = true ↔ (isInitialized s = true ∧ s.fm ≠ FM_NONE ∧
      (critAboveHorizon s ∨ critAllSkyAlt s ∨ critAllSkyDec s ∨ critCon s ∨
       critObjType s ∨ critMag s ∨ critNearby s ∨ critDblMax s ∨ critDblMin s ∨
       critVarPer s))) ∧
    (isDsoCatalog s = false → s.fm = FM_OBJ_TYPE → isFiltered s = false) ∧
    (isDblStarCatalog s = false →
      (s.fm = FM_DBL_MAX_SEP ∨ s.fm = FM_DBL_MIN_SEP) → isFiltered s = false) ∧
    (isVarStarCatalog s = false → s.fm = FM_VAR_MAX_PER → isFiltered s = false) := by
  refine ⟨isFiltered_of_uninitialized s, isFiltered_of_fm_none s,
    isFiltered_eq_true_iff s, ?_, ?_, ?_⟩
  · intro hdso hfm8
    cases hfil : isFiltered s with
    | false => rfl
    | true =>
      rw [isFiltered_eq_true_iff] at hfil
      obtain ⟨-, -, hcrit⟩ := hfil
      rcases hcrit with h|h|h|h|h|h|h|h|h|h
      · exact absurd (hfm8 ▸ h.1) (by decide)
      · exact absurd (hfm8 ▸ h.1) (by decide)
      · exact absurd (hfm8 ▸ h.1) (by decide)
      · exact absurd (hfm8 ▸ h.1) (by decide)
      · exact absurd h.1 (by rw [hdso]; decide)
      · exact absurd (hfm8 ▸ h.1) (by decide)
      · exact absurd (hfm8 ▸ h.1) (by decide)
      · exact absurd (hfm8 ▸ h.1) (by decide)
      · exact absurd (hfm8 ▸ h.1) (by decide)
      · exact absurd (hfm8 ▸ h.1) (by decide)
  · intro hdbl hfm2
    cases hfil : isFiltered s with
    | false => rfl
    | true =>
      rw [isFiltered_eq_true_iff] at hfil
      obtain ⟨-, -, hcrit⟩ := hfil
      rcases hfm2 with hfm2 | hfm2 <;>
        · rcases hcrit with h|h|h|h|h|h|h|h|h|h
          · exact absurd (hfm2 ▸ h.1) (by decide)
          · exact absurd (hfm2 ▸ h.1) (by decide)
          · exact absurd (hfm2 ▸ h.1) (by decide)
          · exact absurd (hfm2 ▸ h.1) (by decide)
          · exact absurd (hfm2 ▸ h.2.1) (by decide)
          · exact absurd (hfm2 ▸ h.1) (by decide)
          · exact absurd (hfm2 ▸ h.1) (by decide)
          · exact absurd h.2.1 (by rw [hdbl]; decide)
          · exact absurd h.2.1 (by rw [hdbl]; decide)
          · exact absurd (hfm2 ▸ h.1) (by decide)
  · intro hvar hfm9
    cases hfil : isFiltered s with
    | false => rfl
    | true =>
      rw [isFiltered_eq_true_iff] at hfil
      obtain ⟨-, -, hcrit⟩ := hfil
      rcases hcrit with h|h|h|h|h|h|h|h|h|h
      · exact absurd (hfm9 ▸ h.1) (by decide)
      · exact absurd (hfm9 ▸ h.1) (by decide)
      · exact absurd (hfm9 ▸ h.1) (by decide)
      · exact absurd (hfm9 ▸ h.1) (by decide)
      · exact absurd (hfm9 ▸ h.2.1) (by decide)
      · exact absurd (hfm9 ▸ h.1) (by decide)
      · exact absurd (hfm9 ▸ h.1) (by decide)
      · exact absurd (hfm9 ▸ h.1) (by decide)
      · exact absurd (hfm9 ▸ h.1) (by decide)
      · exact absurd h.2.1 (by rw [hvar]; decide)

/-- Witness for C5: on a concrete state with an empty filter, the theorem
    yields that nothing is filtered. -/
theorem C5_isFiltered_structure_witness :
    (mkMgr regC2).fm = FM_NONE ∧ isFiltered (mkMgr regC2) = false :=
  ⟨by decide, (C5_isFiltered_structure (mkMgr regC2)).2.1 (by decide)⟩

/-- A one-record full-precision star catalog whose record has the given
    scaled magnitude. -/
def magCat (m : ℤ) : catalog_t :=
  { Title := "M", Pfx := "", NumObjects := 1,
    Objects := CatData.genStar [gsRec m false],
    ObjectNames := "", ObjectSubIds := "", CatalogType := CAT_GEN_STAR,
    Epoch := 2000, Index := 0 }

/-- Magnitude filter enabled with limit 10 on a magnitude-20 record, but the
    observer state is uninitialised (zero LST seed). -/
def sC6bad : CatMgr :=
  { select (mkMgr [magCat 2000, sentinelCat]) 0 with
      lstT0 := 0, fm := FM_BY_MAG, fm_mag_limit := 10 }

/-- Same catalog with a magnitude-5 record and the observer initialised. -/
def sC6good : CatMgr :=
  { select (mkMgr [magCat 500, sentinelCat]) 0 with
      fm := FM_BY_MAG, fm_mag_limit := 10 }

/-- Counterexample to claim C6 as stated: with the magnitude filter enabled
    with limit 10 but the observer state uninitialised, `incIndex` reports
    success (an uninitialised observer never filters) yet the reached record
    has magnitude 20, violating `magnitude() < M`. -/
theorem C6_magnitude_filter_counterexample :
    sC6bad.fm &&& FM_BY_MAG ≠ 0 ∧
    0 ≤ sC6bad.selected ∧ 0 < getMaxIndex sC6bad + 1 ∧
    (incIndex sC6bad).1 = true ∧
    ¬ (magnitude (incIndex sC6bad).2 < sC6bad.fm_mag_limit) := by
  have huninit : ∀ f, isInitialized { sC6bad with catalog := f } = false := by
    intro f
    unfold isInitialized
    rw [if_neg]
    intro hh
    exact hh.2 rfl
  have hstate : incIndexState sC6bad = incBody sC6bad := by
    unfold incIndexState
    rw [if_pos (by decide), show (getMaxIndex sC6bad + 1).toNat = 1 from by decide,
      incLoop, if_neg]
    intro hh
    exact absurd hh.2 (by decide)
  have hfilt : isFiltered (incBody sC6bad) = false := by
    obtain ⟨f, hf⟩ := incBody_catalog_only sC6bad
    rw [hf]
    exact isFiltered_of_uninitialized _ (huninit f)
  refine ⟨by decide, by decide, by decide, ?_, ?_⟩
  · show Bool.not (isFiltered (incIndexState sC6bad)) = true
    rw [hstate, hfilt]
    rfl
  · show ¬ (magnitude (incIndexState sC6bad) < sC6bad.fm_mag_limit)
    rw [hstate]
    have hmag : magnitude (incBody sC6bad) = ((2000 : ℤ) : ℝ) / 100.0 := rfl
    have hlim : sC6bad.fm_mag_limit = 10 := rfl
    rw [hmag, hlim]
    norm_num

/-- Claim C6, amended: additionally assuming the observer state is
    initialised, every position at which `incIndex`/`decIndex` reports success
    satisfies `magnitude() < M` (M the configured magnitude limit). -/
theorem C6_magnitude_filter_amended (s : CatMgr)
    (hinit : isInitialized s = true)
    (hbit : s.fm &&& FM_BY_MAG ≠ 0)
    (hsel : 0 ≤ s.selected) (hne : 0 < getMaxIndex s + 1) :
    ((incIndex s).1 = true → magnitude (incIndex s).2 < s.fm_mag_limit) ∧
    ((decIndex s).1 = true → magnitude (decIndex s).2 < s.fm_mag_limit) := by
  have main : ∀ f : ℤ → catalog_t,
      isFiltered { s with catalog := f } = false →
      magnitude { s with catalog := f } < s.fm_mag_limit := by
    intro f hfalse
    by_contra hcon
    push_neg at hcon
    have htrue : isFiltered { s with catalog := f } = true := by
      rw [isFiltered_eq_true_iff]
      refine ⟨hinit, ?_,
        Or.inr (Or.inr (Or.inr (Or.inr (Or.inr (Or.inl ⟨hbit, hcon⟩)))))⟩
      intro h0fm
      apply hbit
      show s.fm &&& FM_BY_MAG = 0
      rw [show s.fm = ({ s with catalog := f } : CatMgr).fm from rfl, h0fm]
      decide
    rw [htrue] at hfalse
    exact absurd hfalse (by decide)
  constructor
  · intro h
    obtain ⟨f, hf⟩ := incIndexState_catalog_only s
    have hfalse : isFiltered (incIndexState s) = false := by
      cases hfil : isFiltered (incIndexState s) with
      | false => rfl
      | true =>
        have : (incIndex s).1 = false := by
          show Bool.not (isFiltered (incIndexState s)) = false
          rw [hfil]
          rfl
        rw [h] at this
        exact absurd this (by decide)
    show magnitude (incIndexState s) < s.fm_mag_limit
    rw [hf] at hfalse ⊢
    exact main f hfalse
  · intro h
    obtain ⟨f, hf⟩ := decIndexState_catalog_only s
    have hfalse : isFiltered (decIndexState s) = false := by
      cases hfil : isFiltered (decIndexState s) with
      | false => rfl
      | true =>
        have : (decIndex s).1 = false := by
          show Bool.not (isFiltered (decIndexState s)) = false
          rw [hfil]
          rfl
        rw [h] at this
        exact absurd this (by decide)
    show magnitude (decIndexState s) < s.fm_mag_limit
    rw [hf] at hfalse ⊢
    exact main f hfalse

theorem sC6good_initialized : isInitialized sC6good = true := by
  unfold isInitialized
  have h : sC6good.lat < 9999 ∧ sC6good.lstT0 ≠ 0 := by
    constructor
    · show (45 : ℝ) < 9999
      norm_num
    · show (1 : ℝ) ≠ 0
      norm_num
  rw [if_pos h]

/-- Witness for the amended C6 at the initialised concrete state. -/
theorem C6_magnitude_filter_amended_witness :
    (isInitialized sC6good = true ∧ sC6good.fm &&& FM_BY_MAG ≠ 0 ∧
     0 ≤ sC6good.selected ∧ 0 < getMaxIndex sC6good + 1) ∧
    (((incIndex sC6good).1 = true →
        magnitude (incIndex sC6good).2 < sC6good.fm_mag_limit) ∧
     ((decIndex sC6good).1 = true →
        magnitude (decIndex sC6good).2 < sC6good.fm_mag_limit)) :=
  ⟨⟨sC6good_initialized, by decide, by decide, by decide⟩,
   C6_magnitude_filter_amended sC6good sC6good_initialized (by decide) (by decide)
     (by decide)⟩

/-! C7: name resolution -/

/-- The given state with the selected registry entry's name table replaced by
    `t` (used to express that an accessor never reads the table). -/
def withNamesEntry (s : CatMgr) (t : String) : catalog_t :=
  { s.catalog s.selected with ObjectNames := t }

/-- See `withNames`. -/
def withNames (s : CatMgr) (t : String) : CatMgr :=
  { s with catalog := Function.update s.catalog s.selected (withNamesEntry s t) }

theorem withNames_catalogType (s : CatMgr) (t : String) :
    catalogType (withNames s t) = catalogType s := by
  unfold catalogType withNames withNamesEntry
  simp [Function.update_same]

theorem withNames_getIndex (s : CatMgr) (t : String) :
    getIndex (withNames s t) = getIndex s := by
  unfold getIndex withNames withNamesEntry
  simp [Function.update_same]

theorem withNames_getMaxIndex (s : CatMgr) (t : String) :
    getMaxIndex (withNames s t) = getMaxIndex s := by
  unfold getMaxIndex withNames withNamesEntry
  simp [Function.update_same]

theorem recHasName_withNames (s : CatMgr) (t : String) (i : ℤ) :
    recHasName (withNames s t) i = recHasName s i := by
  unfold recHasName
  rw [withNames_catalogType]
  rfl

/-- A six-record star catalog whose records 2 and 5 carry the name flag, with
    the name table "Vega;Polaris". -/
def nameCat : catalog_t :=
  { Title := "N", Pfx := "", NumObjects := 6,
    Objects := CatData.genStar
      [gsRec 100 false, gsRec 100 false, gsRec 100 true, gsRec 100 false,
       gsRec 100 false, gsRec 100 true],
    ObjectNames := "Vega;Polaris", ObjectSubIds := "",
    CatalogType := CAT_GEN_STAR, Epoch := 2000, Index := 0 }

/-- The name catalog selected with the cursor at `i`. -/
def sName (i : ℤ) : CatMgr := setIdx (select (mkMgr [nameCat, sentinelCat]) 0) i

/-- Claim C7: with the name flag unset on the current record, `objectName`
    is -1 and `objectNameStr` is "" for EVERY name table (no table scan);
    with the flag set, the ordinal is the count of flagged records at indices
    0..Index inclusive minus one, and `objectNameStr` is that element of the
    semicolon-delimited table; concretely, with flags at records 2 and 5 and
    table "Vega;Polaris", index 2 resolves to "Vega", index 5 to "Polaris",
    and the unflagged indices to "". -/
theorem C7_name_flag_ordinal (s : CatMgr) (hsel : 0 ≤ s.selected) :
    (recHasName s (getIndex s) = some false →
      objectName s = -1 ∧ ∀ t : String, objectNameStr (withNames s t) = "") ∧
    (recHasName s (getIndex s) = some true → 0 ≤ getIndex s →
      getIndex s ≤ getMaxIndex s →
      objectName s = ((List.range ((getIndex s).toNat + 1)).countP
          (fun i : ℕ => recHasName s (i : ℤ) = some true) : ℤ) - 1 ∧
      objectNameStr s =
        getElementFromString (s.catalog s.selected).ObjectNames (objectName s)) ∧
    (objectName (sName 2) = 0 ∧ objectNameStr (sName 2) = "Vega" ∧
     objectName (sName 5) = 1 ∧ objectNameStr (sName 5) = "Polaris" ∧
     objectNameStr (sName 0) = "" ∧ objectNameStr (sName 1) = "" ∧
     objectNameStr (sName 3) = "" ∧ objectNameStr (sName 4) = "") := by
  refine ⟨?_, ?_, by decide, by decide, by decide, by decide, by decide,
    by decide, by decide, by decide⟩
  · intro hflag
    have hname : objectName s = -1 := by
      unfold objectName
      rw [if_neg (by omega), hflag]
    refine ⟨hname, ?_⟩
    intro t
    have hnameT : objectName (withNames s t) = -1 := by
      unfold objectName
      rw [if_neg (show ¬ (withNames s t).selected < 0 from by
        show ¬ s.selected < 0
        omega)]
      rw [withNames_getIndex, recHasName_withNames, hflag]
    unfold objectNameStr
    rw [if_neg (show ¬ (withNames s t).selected < 0 from by
      show ¬ s.selected < 0
      omega)]
    rw [hnameT, if_neg (by omega)]
  · intro hflag h0 h1
    have hname : objectName s = ((List.range ((getIndex s).toNat + 1)).countP
        (fun i : ℕ => recHasName s (i : ℤ) = some true) : ℤ) - 1 := by
      unfold objectName
      rw [if_neg (by omega), hflag]
      rw [if_neg (by omega), if_neg (by omega)]
    refine ⟨hname, ?_⟩
    have hpos : 0 ≤ objectName s := by
      rw [hname]
      have hmem : (getIndex s).toNat ∈ List.range ((getIndex s).toNat + 1) :=
        List.mem_range.mpr (by omega)
      have hcount : 0 < (List.range ((getIndex s).toNat + 1)).countP
          (fun i : ℕ => recHasName s (i : ℤ) = some true) := by
        rw [List.countP_pos_iff]
        refine ⟨(getIndex s).toNat, hmem, ?_⟩
        simp only [decide_eq_true_eq]
        rw [Int.toNat_of_nonneg h0]
        exact hflag
      omega
    unfold objectNameStr
    rw [if_neg (by omega), if_pos hpos]

/-- Witness for C7 at the concrete name catalog, cursor 2. -/
theorem C7_name_flag_ordinal_witness :
    (0 ≤ (sName 2).selected ∧ recHasName (sName 2) (getIndex (sName 2)) = some true ∧
     0 ≤ getIndex (sName 2) ∧ getIndex (sName 2) ≤ getMaxIndex (sName 2)) ∧
    (objectName (sName 2) = ((List.range ((getIndex (sName 2)).toNat + 1)).countP
        (fun i : ℕ => recHasName (sName 2) (i : ℤ) = some true) : ℤ) - 1 ∧
     objectNameStr (sName 2) =
       getElementFromString ((sName 2).catalog (sName 2).selected).ObjectNames
         (objectName (sName 2))) :=
  ⟨⟨by decide, by decide, by decide, by decide⟩,
   ((C7_name_flag_ordinal (sName 2) (by decide)).2.1 (by decide) (by decide)
     (by decide))⟩

/-! C8: observed place -/

theorem sC6bad_uninitialized : isInitialized sC6bad = false := by
  unfold isInitialized
  rw [if_neg]
  intro hh
  exact hh.2 rfl

/-- Modelled from the spec: the observed-place conversion exactly as the spec
    words it — convert RA (hours, times 15) and Dec to horizon coordinates via
    `EquToHor`, add the refraction `TrueRefrac(Alt)` (arcminutes, divided by
    60 to get degrees) to the altitude, convert back via `HorToEqu`, RA back
    to hours; the identity when the observer state is not initialised. -/
noncomputable def observedPlaceSpec (s : CatMgr) (RA Dec : ℝ) : ℝ × ℝ :=
  if isInitialized s = true then
    ((HorToEqu s ((EquToHor s (RA * 15.0) Dec).1 +
        TrueRefrac (EquToHor s (RA * 15.0) Dec).1 1010 10 / 60.0)
        ((EquToHor s (RA * 15.0) Dec).2)).1 / 15.0,
     (HorToEqu s ((EquToHor s (RA * 15.0) Dec).1 +
        TrueRefrac (EquToHor s (RA * 15.0) Dec).1 1010 10 / 60.0)
        ((EquToHor s (RA * 15.0) Dec).2)).2)
  else (RA, Dec)

/-- Claim C8: `topocentricToObservedPlace` leaves RA/Dec unchanged when the
    observer state is uninitialised, and otherwise computes exactly the
    spec's composition: horizon transform, refraction (arcminutes / 60) added
    to altitude, inverse transform, RA back in hours. -/
theorem C8_topocentric_to_observed (s : CatMgr) (RA Dec : ℝ) :
    (isInitialized s = false → topocentricToObservedPlace s RA Dec = (RA, Dec)) ∧
    topocentricToObservedPlace s RA Dec = observedPlaceSpec s RA Dec := by
  constructor
  · intro h
    unfold topocentricToObservedPlace
    rw [h, if_neg (by decide)]
  · unfold topocentricToObservedPlace observedPlaceSpec
    by_cases h : isInitialized s = true
    · rw [if_pos h]
    · rw [if_neg h]

/-- Witness for C8 at a concrete uninitialised state. -/
theorem C8_topocentric_to_observed_witness :
    isInitialized sC6bad = false ∧
    topocentricToObservedPlace sC6bad 3 4 = (3, 4) :=
  ⟨sC6bad_uninitialized,
   (C8_topocentric_to_observed sC6bad 3 4).1 sC6bad_uninitialized⟩

/-! C10: magnitude decoding -/

/-- Claim C10: in the quantized/compact catalog types a stored magnitude byte
    of 255 decodes to the unknown sentinel 99.9 — which is not the scaled
    value 255/10 - 2.5 = 23 — while any other byte m decodes to m/10 - 2.5;
    the full-precision types decode the stored scaled integer divided by 100.
    (`magnitude2` reads a secondary magnitude byte only for the compact
    double-star type; the doubles' and variables' full records decode
    hundredths.) -/
theorem C10_magnitude_decoding (s : CatMgr) :
    (0 ≤ s.selected →
      (catalogType s = CAT_GEN_STAR_VCOMP →
        ((idxGet s.genStarVCompCatalog (getIndex s)).Mag = 255 →
          magnitude s = 99.9) ∧
        ((idxGet s.genStarVCompCatalog (getIndex s)).Mag ≠ 255 →
          magnitude s =
            ((idxGet s.genStarVCompCatalog (getIndex s)).Mag : ℝ) / 10.0 - 2.5)) ∧
      (catalogType s = CAT_DBL_STAR_COMP →
        (((idxGet s.dblStarCompCatalog (getIndex s)).Mag = 255 →
           magnitude s = 99.9) ∧
         ((idxGet s.dblStarCompCatalog (getIndex s)).Mag ≠ 255 →
           magnitude s =
             ((idxGet s.dblStarCompCatalog (getIndex s)).Mag : ℝ) / 10.0 - 2.5)) ∧
        (((idxGet s.dblStarCompCatalog (getIndex s)).Mag2 = 255 →
           magnitude2 s = 99.9) ∧
         ((idxGet s.dblStarCompCatalog (getIndex s)).Mag2 ≠ 255 →
           magnitude2 s =
             ((idxGet s.dblStarCompCatalog (getIndex s)).Mag2 : ℝ) / 10.0 - 2.5))) ∧
      (catalogType s = CAT_DSO_COMP →
        ((idxGet s.dsoCompCatalog (getIndex s)).Mag = 255 → magnitude s = 99.9) ∧
        ((idxGet s.dsoCompCatalog (getIndex s)).Mag ≠ 255 →
          magnitude s =
            ((idxGet s.dsoCompCatalog (getIndex s)).Mag : ℝ) / 10.0 - 2.5)) ∧
      (catalogType s = CAT_DSO_VCOMP →
        ((idxGet s.dsoVCompCatalog (getIndex s)).Mag = 255 → magnitude s = 99.9) ∧
        ((idxGet s.dsoVCompCatalog (getIndex s)).Mag ≠ 255 →
          magnitude s =
            ((idxGet s.dsoVCompCatalog (getIndex s)).Mag : ℝ) / 10.0 - 2.5)) ∧
      (catalogType s = CAT_GEN_STAR →
        magnitude s = ((idxGet s.genStarCatalog (getIndex s)).Mag : ℝ) / 100.0) ∧
      (catalogType s = CAT_DBL_STAR →
        magnitude s = ((idxGet s.dblStarCatalog (getIndex s)).Mag : ℝ) / 100.0 ∧
        magnitude2 s = ((idxGet s.dblStarCatalog (getIndex s)).Mag2 : ℝ) / 100.0) ∧
      (catalogType s = CAT_VAR_STAR →
        magnitude s = ((idxGet s.varStarCatalog (getIndex s)).Mag : ℝ) / 100.0 ∧
        magnitude2 s = ((idxGet s.varStarCatalog (getIndex s)).Mag2 : ℝ) / 100.0) ∧
      (catalogType s = CAT_DSO →
        magnitude s = ((idxGet s.dsoCatalog (getIndex s)).Mag : ℝ) / 100.0)) ∧
    (99.9 : ℝ) ≠ (255 : ℝ) / 10.0 - 2.5 := by
  constructor
  · intro hs
    have hns : ¬ s.selected < 0 := by omega
    refine ⟨?_, ?_, ?_, ?_, ?_, ?_, ?_, ?_⟩
    · intro h
      unfold magnitude
      rw [if_neg hns, if_neg (by rw [h]; decide), if_pos h]
      constructor
      · intro hm
        rw [if_pos hm]
      · intro hm
        rw [if_neg hm]
    · intro h
      constructor
      · unfold magnitude
        rw [if_neg hns, if_neg (by rw [h]; decide), if_neg (by rw [h]; decide),
          if_neg (by rw [h]; decide), if_pos h]
        constructor
        · intro hm
          rw [if_pos hm]
        · intro hm
          rw [if_neg hm]
      · unfold magnitude2
        rw [if_neg hns, if_neg (by rw [h]; decide), if_pos h]
        constructor
        · intro hm
          rw [if_pos hm]
        · intro hm
          rw [if_neg hm]
    · intro h
      unfold magnitude
      rw [if_neg hns, if_neg (by rw [h]; decide), if_neg (by rw [h]; decide),
        if_neg (by rw [h]; decide), if_neg (by rw [h]; decide),
        if_neg (by rw [h]; decide), if_neg (by rw [h]; decide), if_pos h]
      constructor
      · intro hm
        rw [if_pos hm]
      · intro hm
        rw [if_neg hm]
    · intro h
      unfold magnitude
      rw [if_neg hns, if_neg (by rw [h]; decide), if_neg (by rw [h]; decide),
        if_neg (by rw [h]; decide), if_neg (by rw [h]; decide),
        if_neg (by rw [h]; decide), if_neg (by rw [h]; decide),
        if_neg (by rw [h]; decide), if_pos h]
      constructor
      · intro hm
        rw [if_pos hm]
      · intro hm
        rw [if_neg hm]
    · intro h
      unfold magnitude
      rw [if_neg hns, if_pos h]
    · intro h
      constructor
      · unfold magnitude
        rw [if_neg hns, if_neg (by rw [h]; decide), if_neg (by rw [h]; decide),
          if_pos h]
      · unfold magnitude2
        rw [if_neg hns, if_pos h]
    · intro h
      constructor
      · unfold magnitude
        rw [if_neg hns, if_neg (by rw [h]; decide), if_neg (by rw [h]; decide),
          if_neg (by rw [h]; decide), if_neg (by rw [h]; decide), if_pos h]
      · unfold magnitude2
        rw [if_neg hns, if_neg (by rw [h]; decide), if_neg (by rw [h]; decide),
          if_pos h]
    · intro h
      unfold magnitude
      rw [if_neg hns, if_neg (by rw [h]; decide), if_neg (by rw [h]; decide),
        if_neg (by rw [h]; decide), if_neg (by rw [h]; decide),
        if_neg (by rw [h]; decide), if_pos h]
  · norm_num

/-- Concrete state with a very-compact star catalog whose single record has
    the unknown-magnitude byte 255. -/
def sVC : CatMgr := select (mkMgr [vcCat255, sentinelCat]) 0

/-- Witness for C10 at the 255-byte record. -/
theorem C10_magnitude_decoding_witness :
    (0 ≤ sVC.selected ∧ catalogType sVC = CAT_GEN_STAR_VCOMP ∧
     (idxGet sVC.genStarVCompCatalog (getIndex sVC)).Mag = 255) ∧
    magnitude sVC = 99.9 :=
  ⟨⟨by decide, by decide, by decide⟩,
   ((((C10_magnitude_decoding sVC).1 (by decide)).1 (by decide)).1 (by decide))⟩

/-! C9: refraction -/

theorem trueRefrac_eq_max (Alt Pressure Temperature : ℝ) :
    TrueRefrac Alt Pressure Temperature =
      max 0 ((1.02 * cot ((Alt + (10.3 / (Alt + 5.11))) / Rad)) *
        ((Pressure / 1010.0) * (283.0 / (273.0 + Temperature)))) := by
  unfold TrueRefrac
  rcases lt_or_le ((1.02 * cot ((Alt + (10.3 / (Alt + 5.11))) / Rad)) *
      ((Pressure / 1010.0) * (283.0 / (273.0 + Temperature)))) 0 with h | h
  · rw [if_pos h, max_eq_left (le_of_lt h)]
  · rw [if_neg (not_lt.mpr h), max_eq_right h]

theorem trueRefrac_nonneg (Alt Pressure Temperature : ℝ) :
    0 ≤ TrueRefrac Alt Pressure Temperature := by
  unfold TrueRefrac
  split
  · exact le_refl 0
  · next h => exact not_lt.mp h

theorem trueRefrac_zero_bounds :
    28 < TrueRefrac 0 1010 10 ∧ TrueRefrac 0 1010 10 < 30 := by
  have hπL := Real.pi_gt_d6
  have hπU := Real.pi_lt_d6
  have hπ0 : (0 : ℝ) < Real.pi := Real.pi_pos
  set c : ℝ := (((0 : ℝ) + (10.3 / ((0 : ℝ) + 5.11))) / Rad) with hcdef
  have hc : c = (10.3 / 5.11) * Real.pi / 180 := by
    rw [hcdef, Rad, div_div_eq_mul_div]
    norm_num
  have hcLo : 0.0351798 < c := by rw [hc]; nlinarith
  have hcHi : c < 0.0351799 := by rw [hc]; nlinarith
  clear_value c
  have hc0 : 0 < c := by linarith
  have hs_lt : Real.sin c < c := Real.sin_lt hc0
  have hs_gt : c - c ^ 3 / 4 < Real.sin c := Real.sin_gt_sub_cube hc0 (by linarith)
  have hc3 : c ^ 3 < 0.0351799 ^ 3 :=
    pow_lt_pow_left hcHi (le_of_lt hc0) (by norm_num)
  have hc3n : ((0.0351799 : ℝ)) ^ 3 < 0.00004355 := by norm_num
  have hsLo : 0.03516 < Real.sin c := by linarith
  have hcosLo : 0.999 < Real.cos c := by
    have h1 : 1 - c ^ 2 / 2 ≤ Real.cos c := Real.one_sub_sq_div_two_le_cos
    have h2 : c ^ 2 < 0.0351799 ^ 2 :=
      pow_lt_pow_left hcHi (le_of_lt hc0) (by norm_num)
    have h3 : ((0.0351799 : ℝ)) ^ 2 < 0.00124 := by norm_num
    linarith
  have hcosHi : Real.cos c ≤ 1 := Real.cos_le_one c
  have hsin_pos : 0 < Real.sin c := by linarith
  have hcot : cot c = Real.cos c / Real.sin c := by
    unfold cot
    rw [Real.tan_eq_sin_div_cos, one_div_div]
  have hR : TrueRefrac 0 1010 10 = 1.02 * (Real.cos c / Real.sin c) := by
    unfold TrueRefrac
    rw [← hcdef, hcot,
      show ((1010 : ℝ) / 1010.0) * (283.0 / (273.0 + 10)) = 1 from by norm_num,
      mul_one]
    rw [if_neg]
    push_neg
    positivity
  rw [hR]
  rw [show (1.02 : ℝ) * (Real.cos c / Real.sin c) =
      (1.02 * Real.cos c) / Real.sin c from by ring]
  constructor
  · rw [lt_div_iff hsin_pos]
    nlinarith
  · rw [div_lt_iff hsin_pos]
    nlinarith

theorem trueRefrac_89_bounds :
    0 ≤ TrueRefrac 89 1010 10 ∧ TrueRefrac 89 1010 10 < 0.02 := by
  refine ⟨trueRefrac_nonneg 89 1010 10, ?_⟩
  have hπL := Real.pi_gt_d6
  have hπU := Real.pi_lt_d6
  have hπ0 : (0 : ℝ) < Real.pi := Real.pi_pos
  set A : ℝ := (((89 : ℝ) + (10.3 / ((89 : ℝ) + 5.11))) / Rad) with hAdef
  have hA : A = (89 + 10.3 / 94.11) * Real.pi / 180 := by
    rw [hAdef, Rad, div_div_eq_mul_div]
    norm_num
  set B : ℝ := Real.pi / 2 - A with hBdef
  have hsinB : Real.sin B = Real.cos A := Real.sin_pi_div_two_sub A
  have hcosB : Real.cos B = Real.sin A := Real.cos_pi_div_two_sub A
  have hBLo : 0.0155430 < B := by rw [hBdef, hA]; nlinarith
  have hBHi : B < 0.0155431 := by rw [hBdef, hA]; nlinarith
  clear_value A B
  have hB0 : 0 < B := by linarith
  have hBpi : B < Real.pi := by linarith
  have hsinBlt : Real.sin B < B := Real.sin_lt hB0
  have hsinBpos : 0 < Real.sin B :=
    Real.sin_pos_of_pos_of_lt_pi hB0 hBpi
  have hcosBLo : 0.9998 < Real.cos B := by
    have h1 : 1 - B ^ 2 / 2 ≤ Real.cos B := Real.one_sub_sq_div_two_le_cos
    have h2 : B ^ 2 < 0.0155431 ^ 2 :=
      pow_lt_pow_left hBHi (le_of_lt hB0) (by norm_num)
    have h3 : ((0.0155431 : ℝ)) ^ 2 < 0.000242 := by norm_num
    linarith
  have hcosBpos : 0 < Real.cos B := by linarith
  have hcot : cot A = Real.sin B / Real.cos B := by
    unfold cot
    rw [Real.tan_eq_sin_div_cos, one_div_div, ← hsinB, ← hcosB]
  have hR : TrueRefrac 89 1010 10 = 1.02 * (Real.sin B / Real.cos B) := by
    unfold TrueRefrac
    rw [← hAdef, hcot,
      show ((1010 : ℝ) / 1010.0) * (283.0 / (273.0 + 10)) = 1 from by norm_num,
      mul_one]
    rw [if_neg]
    push_neg
    positivity
  rw [hR]
  rw [show (1.02 : ℝ) * (Real.sin B / Real.cos B) =
      (1.02 * Real.sin B) / Real.cos B from by ring]
  rw [div_lt_iff hcosBpos]
  nlinarith

/-- Counterexample to claim C9's numeric sentence as stated: at the default
    pressure and temperature the refraction at zero altitude evaluates below
    30 arcminutes (in fact to about 29), not "on the order of 34 arcminutes"
    (the Bennett horizon value the spec quotes). -/
theorem C9_refraction_counterexample : TrueRefrac 0 1010 10 < 30 :=
  trueRefrac_zero_bounds.2

/-- Claim C9, amended: `TrueRefrac` equals the clamped Saemundsson-style
    formula max(0, 1.02·cot((Alt + 10.3/(Alt+5.11)) in radians) · (P/1010) ·
    (283/(273+T))) and is never negative; with the default arguments its value
    at altitude 0 lies strictly between 28 and 30 arcminutes (about 29, not
    34), and at altitude 89 degrees it is nonnegative and below 0.02
    arcminutes (near zero). -/
theorem C9_refraction_amended :
    (∀ Alt Pressure Temperature : ℝ,
       TrueRefrac Alt Pressure Temperature =
         max 0 ((1.02 * cot ((Alt + (10.3 / (Alt + 5.11))) / Rad)) *
           ((Pressure / 1010.0) * (283.0 / (273.0 + Temperature)))) ∧
       0 ≤ TrueRefrac Alt Pressure Temperature) ∧
    (28 < TrueRefrac 0 1010 10 ∧ TrueRefrac 0 1010 10 < 30) ∧
    (0 ≤ TrueRefrac 89 1010 10 ∧ TrueRefrac 89 1010 10 < 0.02) :=
  ⟨fun Alt Pressure Temperature =>
    ⟨trueRefrac_eq_max Alt Pressure Temperature,
     trueRefrac_nonneg Alt Pressure Temperature⟩,
   trueRefrac_zero_bounds, trueRefrac_89_bounds⟩

end OnStepCat

